import Mathlib

/-!
# Hotel booking front end (`script.js`): persisted store, session and install state

A shallow embedding of the controller `HotelBookingSystem` and of the login
form handler of `script.js`, together with the part of the browser platform
they rely on (`localStorage`, `JSON.stringify`, `JSON.parse`).

Conventions of the embedding.

* The texts kept in `localStorage` and the values of form fields are Lean
  strings (sequences of Unicode scalar values). A string inside a JSON value
  is a `JsString`, which can also hold the unpaired surrogates that
  `JSON.parse` accepts as escapes.
* A Number value is the double it is, kept as an exact fraction: `JSON.parse`
  rounds a literal to the nearest double, ties to even, and `JSON.stringify`
  writes the shortest decimal that reads back as the same double.
* A handler that throws is a value `Except.error _`; the storage it leaves
  behind is the storage it had reached when it threw.
* The markup is not among the sources. The elements the script reads without
  a guard (the fields `checkin`, `checkout` and `guests`, the two fields of the
  login form, the element `pwaStatus`) are taken to exist; the elements it
  guards (`featuredRooms`, `installPrompt`) may be missing.
-/

namespace HotelBooking

/-! ## JSON values -/

/-- One element of a JavaScript string as `JSON.parse` builds it: a Unicode
scalar value, or a surrogate code unit that has no partner next to it. -/
inductive JsChar where
  | scalar (c : Char)
  | surrogate (unit : Nat)
  deriving DecidableEq, Repr

/-- A JavaScript string. -/
abbrev JsString := List JsChar

/-- The JavaScript string of a well-formed text. -/
def js (s : String) : JsString := s.data.map .scalar

/-- A Number value that `JSON.parse` can return: the double `num / 2 ^ scale`
with its sign (`scale` is zero or `num` is odd), or an infinity. -/
inductive JsNumber where
  | finite (negative : Bool) (num : Nat) (scale : Nat)
  | infinite (negative : Bool)
  deriving DecidableEq, Repr

/-- The Number value of a numeral of the source; the script writes safe
integers only. -/
instance (n : Nat) : OfNat JsNumber n := ⟨.finite false n 0⟩

/-- A value that `JSON.parse` can return. The properties of an object are kept
in the order in which `JSON.stringify` enumerates them. -/
inductive Json where
  | null : Json
  | bool (b : Bool) : Json
  | num (x : JsNumber) : Json
  | str (s : JsString) : Json
  | arr (items : List Json) : Json
  | obj (props : List (JsString × Json)) : Json
  deriving Inhabited

/-- The exceptions a handler of the script can raise. -/
inductive JsError where
  | syntaxError
  | typeError
  | referenceError
  deriving DecidableEq, Repr

/-- A string literal of the source as a value. -/
def Json.text (s : String) : Json := .str (js s)

/-- A property `k: v` of an object literal of the source. -/
def prop (k : String) (v : Json) : JsString × Json := (js k, v)

/-! ## Number values -/

/-- Number of binary digits of a positive number. -/
def bitLength (n : Nat) : Nat := (Nat.toDigits 2 n).length

/-- Number of decimal digits of a positive number. -/
def decimalLength (n : Nat) : Nat := (Nat.toDigits 10 n).length

/-- Whether `a / b` is at least `2 ^ t`. -/
def ratioAtLeastPow2 (a b : Nat) (t : Int) : Bool :=
  match t with
  | .ofNat k => decide (b * 2 ^ k ≤ a)
  | .negSucc k => decide (b ≤ a * 2 ^ (k + 1))

/-- The integer `t` with `2 ^ t ≤ a / b < 2 ^ (t + 1)`, for positive `a`, `b`. -/
def floorLog2 (a b : Nat) : Int :=
  let t : Int := (bitLength a : Int) - (bitLength b : Int)
  if ratioAtLeastPow2 a b t then t else t - 1

/-- The integer nearest to `x / y`, the even one of two that are as near. -/
def roundHalfEven (x y : Nat) : Nat :=
  let q := x / y
  let r := x % y
  if 2 * r < y then q
  else if y < 2 * r then q + 1
  else if q % 2 = 0 then q
  else q + 1

/-- The integer nearest to `a / (b * 2 ^ e)`, the even one of two that are as
near. -/
def scaledRound (a b : Nat) (e : Int) : Nat :=
  match e with
  | .ofNat k => roundHalfEven a (b * 2 ^ k)
  | .negSucc k => roundHalfEven (a * 2 ^ (k + 1)) b

/-- The double nearest to the positive rational `a / b`, as a significand
below `2 ^ 53` and a binary exponent of at least `-1074`: round to nearest,
ties to even; `none` when the result is infinite. -/
def roundToDouble (a b : Nat) : Option (Nat × Int) :=
  let e : Int := max (floorLog2 a b - 52) (-1074)
  let m := scaledRound a b e
  let me : Nat × Int := if m = 2 ^ 53 then (2 ^ 52, e + 1) else (m, e)
  if 971 < me.2 then none else some me

/-- Removes up to `k` factors two from `m`, lowering the scale with each. -/
def reduceDyadic : Nat → Nat → Nat × Nat
  | m, 0 => (m, 0)
  | m, k + 1 => if m % 2 = 0 then reduceDyadic (m / 2) k else (m, k + 1)

/-- The value `m * 2 ^ e` as a fraction `num / 2 ^ scale` in lowest terms. -/
def dyadic (m : Nat) (e : Int) : Nat × Nat :=
  match e with
  | .ofNat k => (m * 2 ^ k, 0)
  | .negSucc k => if m = 0 then (0, 0) else reduceDyadic m (k + 1)

/-- The Number value of the positive rational `a / b` with a sign. -/
def numberOfRatio (negative : Bool) (a b : Nat) : JsNumber :=
  if a = 0 then .finite negative 0 0
  else
    match roundToDouble a b with
    | none => .infinite negative
    | some (m, e) => .finite negative (dyadic m e).1 (dyadic m e).2

/-- The Number value of the decimal `± digits * 10 ^ exponent`. -/
def numberOfDecimal (negative : Bool) (digits : Nat) (exponent : Int) : JsNumber :=
  match exponent with
  | .ofNat k => numberOfRatio negative (digits * 10 ^ k) 1
  | .negSucc k => numberOfRatio negative digits (10 ^ (k + 1))

/-- The `n` of `Number::toString` for a positive double `num / 2 ^ scale`: the
integer with `10 ^ (n - 1) ≤ num / 2 ^ scale < 10 ^ n`. -/
def decimalExponent (num scale : Nat) : Int :=
  if 2 ^ scale ≤ num then (decimalLength (num / 2 ^ scale) : Int)
  else 1 - (decimalLength (2 ^ scale / num) : Int)

/-- The integer part of `(num / 2 ^ scale) / 10 ^ x`. -/
def scaledFloor (num scale : Nat) (x : Int) : Nat :=
  match x with
  | .ofNat k => num / (2 ^ scale * 10 ^ k)
  | .negSucc k => num * 10 ^ (k + 1) / 2 ^ scale

/-- Whether the decimal `s * 10 ^ x` is read as the double `num / 2 ^ scale`. -/
def readsAs (s : Nat) (x : Int) (num scale : Nat) : Bool :=
  decide (numberOfDecimal false s x = .finite false num scale)

/-- Whether `num / 2 ^ scale` is nearer to `s * 10 ^ x` than to
`(s + 1) * 10 ^ x`, or as near with `s` even. -/
def nearerLow (s : Nat) (x : Int) (num scale : Nat) : Bool :=
  match x with
  | .ofNat k =>
    decide (2 * num < (2 * s + 1) * 10 ^ k * 2 ^ scale) ||
      (decide (2 * num = (2 * s + 1) * 10 ^ k * 2 ^ scale) && decide (s % 2 = 0))
  | .negSucc k =>
    decide (2 * num * 10 ^ (k + 1) < (2 * s + 1) * 2 ^ scale) ||
      (decide (2 * num * 10 ^ (k + 1) = (2 * s + 1) * 2 ^ scale) && decide (s % 2 = 0))

/-- The decimal with `d` significant digits that is read as the double
`num / 2 ^ scale`, if there is one: of the two decimals around the double the
nearer one that is read so. -/
def digitsOfLength (d : Nat) (n : Int) (num scale : Nat) : Option Nat :=
  let x : Int := n - d
  let s := scaledFloor num scale x
  let low := readsAs s x num scale
  let high := readsAs (s + 1) x num scale
  if low && high then (if nearerLow s x num scale then some s else some (s + 1))
  else if low then some s
  else if high then some (s + 1)
  else none

/-- The shortest decimal that is read as the double `num / 2 ^ scale`: its
significant digits, found with the least `d` from `d` on, and the digit count
`d` they were found with. -/
def shortestDigits : Nat → Nat → Int → Nat → Nat → Nat × Nat
  | 0, d, n, num, scale => (scaledFloor num scale (n - d), d)
  | fuel + 1, d, n, num, scale =>
    match digitsOfLength d n num scale with
    | some s => (s, d)
    | none => shortestDigits fuel (d + 1) n num scale

/-- Drops the zeros at the end of a digit sequence. -/
def dropTrailingZeros (ds : List Char) : List Char :=
  (ds.reverse.dropWhile (fun c => c = '0')).reverse

/-- The decimal digits of an integer. -/
def intDigits (i : Int) : List Char :=
  match i with
  | .ofNat k => Nat.toDigits 10 k
  | .negSucc k => Nat.toDigits 10 (k + 1)

/-- The steps of `Number::toString` that write the digits `ds` (the `k` digits
of `s`) with the exponent `n`. -/
def formatDigits (ds : List Char) (n : Int) : List Char :=
  let k : Int := ds.length
  if k ≤ n ∧ n ≤ 21 then ds ++ List.replicate (n - k).toNat '0'
  else if 0 < n ∧ n ≤ 21 then ds.take n.toNat ++ '.' :: ds.drop n.toNat
  else if -6 < n ∧ n ≤ 0 then '0' :: '.' :: (List.replicate (-n).toNat '0' ++ ds)
  else
    let sign := if 0 < n - 1 then '+' else '-'
    let tail := 'e' :: sign :: intDigits (n - 1)
    match ds with
    | [] => tail
    | [c] => c :: tail
    | c :: rest => c :: '.' :: (rest ++ tail)

/-- `Number::toString` of the positive double `num / 2 ^ scale`. -/
def positiveToString (num scale : Nat) : List Char :=
  let n := decimalExponent num scale
  let sd := shortestDigits 20 1 n num scale
  let all := Nat.toDigits 10 sd.1
  formatDigits (dropTrailingZeros all) (n + ((all.length : Int) - (sd.2 : Int)))

/-- The text `JSON.stringify` writes for a Number value: `Number::toString`
of a finite one, `null` for an infinite one. -/
def renderNumber : JsNumber → List Char
  | .infinite _ => ['n', 'u', 'l', 'l']
  | .finite negative num scale =>
    if num = 0 then ['0']
    else if negative then '-' :: positiveToString num scale
    else positiveToString num scale

/-! ## Property reads -/

/-- The value of the own property `k`, `none` standing for `undefined`. -/
def lookupProp (k : JsString) : List (JsString × Json) → Option Json
  | [] => none
  | (k', v) :: rest => if k' = k then some v else lookupProp k rest

/-- Property read `v.k` on a value that is not `null`: objects answer with
their own property, every other value of JSON has no property of the names
the script reads (`undefined`). -/
def Json.get (v : Json) (k : String) : Option Json :=
  match v with
  | .obj props => lookupProp (js k) props
  | _ => none

/-- The comparison `x === s` of a property read with a string. -/
def strictEqStr (x : Option Json) (s : String) : Bool :=
  match x with
  | some (.str t) => t == js s
  | _ => false

/-! ## `JSON.stringify` -/

/-- Lower-case hexadecimal digit of a number below sixteen. -/
def hexDigit (n : Nat) : Char :=
  if n < 10 then Char.ofNat (48 + n) else Char.ofNat (87 + n)

/-- The escape `\uXXXX` of a code unit. -/
def unicodeEscape (n : Nat) : List Char :=
  ['\\', 'u', hexDigit (n / 4096 % 16), hexDigit (n / 256 % 16),
    hexDigit (n / 16 % 16), hexDigit (n % 16)]

/-- One scalar value of a string as `QuoteJSONString` writes it. -/
def quoteChar (c : Char) : List Char :=
  if c = '"' then ['\\', '"']
  else if c = '\\' then ['\\', '\\']
  else if c = '\x08' then ['\\', 'b']
  else if c = '\x0c' then ['\\', 'f']
  else if c = '\n' then ['\\', 'n']
  else if c = '\r' then ['\\', 'r']
  else if c = '\t' then ['\\', 't']
  else if c.toNat < 32 then unicodeEscape c.toNat
  else [c]

/-- One element of a string as `QuoteJSONString` writes it: an unpaired
surrogate is written as its escape. -/
def quoteJsChar : JsChar → List Char
  | .scalar c => quoteChar c
  | .surrogate unit => unicodeEscape unit

/-- The characters of a string between the quotes. -/
def quoteBody : JsString → List Char
  | [] => []
  | c :: cs => quoteJsChar c ++ quoteBody cs

/-- The JSON text of a string (`QuoteJSONString`). -/
def quoteString (s : JsString) : List Char :=
  '"' :: (quoteBody s ++ ['"'])

mutual
/-- The characters of `JSON.stringify(v)`. -/
def render : Json → List Char
  | .null => ['n', 'u', 'l', 'l']
  | .bool true => ['t', 'r', 'u', 'e']
  | .bool false => ['f', 'a', 'l', 's', 'e']
  | .num x => renderNumber x
  | .str s => quoteString s
  | .arr items => '[' :: (renderItems items ++ [']'])
  | .obj props => '{' :: (renderProps props ++ ['}'])
/-- The elements of an array, separated by commas. -/
def renderItems : List Json → List Char
  | [] => []
  | [v] => render v
  | v :: w :: rest => render v ++ ',' :: renderItems (w :: rest)
/-- The properties of an object, separated by commas. -/
def renderProps : List (JsString × Json) → List Char
  | [] => []
  | [(k, v)] => quoteString k ++ ':' :: render v
  | (k, v) :: p :: rest => quoteString k ++ ':' :: render v ++ ',' :: renderProps (p :: rest)
end

/-- `JSON.stringify(v)`. -/
def stringify (v : Json) : String := String.mk (render v)

/-! ## `JSON.parse` -/

/-- JSON white space. -/
def isWs (c : Char) : Bool :=
  c = ' ' || c = '\t' || c = '\n' || c = '\r'

/-- Drops leading white space. -/
def skipWs : List Char → List Char
  | [] => []
  | c :: cs => if isWs c then skipWs cs else c :: cs

/-- Value of a hexadecimal digit, in either case. -/
def hexVal (c : Char) : Option Nat :=
  if 48 ≤ c.toNat ∧ c.toNat ≤ 57 then some (c.toNat - 48)
  else if 97 ≤ c.toNat ∧ c.toNat ≤ 102 then some (c.toNat - 87)
  else if 65 ≤ c.toNat ∧ c.toNat ≤ 70 then some (c.toNat - 55)
  else none

/-- The code unit written by four hexadecimal digits. -/
def hex4 (a b c d : Char) : Option Nat :=
  match hexVal a, hexVal b, hexVal c, hexVal d with
  | some x, some y, some z, some w => some (x * 4096 + y * 256 + z * 16 + w)
  | _, _, _, _ => none

/-- The character denoted by the single-character escape `\e`. -/
def unescape (e : Char) : Option Char :=
  if e = '"' then some '"'
  else if e = '\\' then some '\\'
  else if e = '/' then some '/'
  else if e = 'b' then some '\x08'
  else if e = 'f' then some '\x0c'
  else if e = 'n' then some '\n'
  else if e = 'r' then some '\r'
  else if e = 't' then some '\t'
  else none

/-- The low surrogate written as an escape `\uXXXX` at the head of the input,
with the input after it. -/
def lowSurrogateEscape : List Char → Option (Nat × List Char)
  | b :: u :: a2 :: b2 :: c2 :: d2 :: rest =>
    if b = '\\' ∧ u = 'u' then
      match hex4 a2 b2 c2 d2 with
      | some m => if 0xDC00 ≤ m ∧ m ≤ 0xDFFF then some (m, rest) else none
      | none => none
    else none
  | _ => none

/-- Reads what follows a backslash inside a string: the element denoted and
the input after the escape. The escape `\uXXXX` of a high surrogate that is
followed by the escape of a low surrogate is read together with it, as the
scalar value of the pair; any other surrogate stays unpaired. -/
def parseEscape : List Char → Option (JsChar × List Char)
  | [] => none
  | e :: cs =>
    if e = 'u' then
      match cs with
      | a :: b :: c :: d :: cs1 =>
        match hex4 a b c d with
        | none => none
        | some n =>
          if n < 0xD800 ∨ 0xDFFF < n then some (.scalar (Char.ofNat n), cs1)
          else if 0xDBFF < n then some (.surrogate n, cs1)
          else
            match lowSurrogateEscape cs1 with
            | some (m, cs2) =>
              some (.scalar (Char.ofNat (0x10000 + (n - 0xD800) * 0x400 + (m - 0xDC00))), cs2)
            | none => some (.surrogate n, cs1)
      | _ => none
    else
      match unescape e with
      | none => none
      | some ch => some (.scalar ch, cs)

/-- Puts an element in front of the string of a parse result. -/
def consChar (c : JsChar) : Option (JsString × List Char) → Option (JsString × List Char)
  | some (s, rest) => some (c :: s, rest)
  | none => none

/-- Reads a string after its opening quote, up to and including the closing
quote; the fuel bounds the number of elements read. -/
def parseCharsAux : Nat → List Char → Option (JsString × List Char)
  | 0, _ => none
  | _ + 1, [] => none
  | fuel + 1, c :: cs =>
    if c = '"' then some ([], cs)
    else if c = '\\' then
      match parseEscape cs with
      | none => none
      | some (ch, rest) => consChar ch (parseCharsAux fuel rest)
    else if c.toNat < 32 then none
    else consChar (.scalar c) (parseCharsAux fuel cs)

/-- Reads a string after its opening quote, up to and including the closing
quote. -/
def parseChars (cs : List Char) : Option (JsString × List Char) :=
  parseCharsAux cs.length cs

/-- Whether a character is a decimal digit. -/
def isDigit (c : Char) : Bool := decide (48 ≤ c.toNat ∧ c.toNat ≤ 57)

/-- Reads a run of decimal digits onto the accumulated value and the
accumulated count of digits. -/
def parseDigits : Nat → Nat → List Char → Nat × Nat × List Char
  | acc, count, [] => (acc, count, [])
  | acc, count, c :: cs =>
    if isDigit c then parseDigits (acc * 10 + (c.toNat - 48)) (count + 1) cs
    else (acc, count, c :: cs)

/-- Reads the integer part of a number literal: a single `0`, or a digit
other than `0` followed by digits. -/
def parseIntPart : List Char → Option (Nat × List Char)
  | [] => none
  | c :: cs =>
    if c = '0' then some (0, cs)
    else if isDigit c then
      some ((parseDigits (c.toNat - 48) 1 cs).1, (parseDigits (c.toNat - 48) 1 cs).2.2)
    else none

/-- Reads the optional fraction of a number literal onto the digits read so
far: the digits with those of the fraction appended, the number of digits of
the fraction, and the input after it. -/
def parseFraction (digits : Nat) : List Char → Option (Nat × Nat × List Char)
  | [] => some (digits, 0, [])
  | c :: cs =>
    if c = '.' then
      if (parseDigits digits 0 cs).2.1 = 0 then none else some (parseDigits digits 0 cs)
    else some (digits, 0, c :: cs)

/-- Reads the optional exponent of a number literal: its value and the input
after it. -/
def parseExponent : List Char → Option (Int × List Char)
  | [] => some (0, [])
  | c :: cs =>
    if c = 'e' ∨ c = 'E' then
      match cs with
      | [] => none
      | s :: cs1 =>
        if s = '-' then
          if (parseDigits 0 0 cs1).2.1 = 0 then none
          else some (-((parseDigits 0 0 cs1).1 : Int), (parseDigits 0 0 cs1).2.2)
        else if s = '+' then
          if (parseDigits 0 0 cs1).2.1 = 0 then none
          else some (((parseDigits 0 0 cs1).1 : Int), (parseDigits 0 0 cs1).2.2)
        else
          if (parseDigits 0 0 (s :: cs1)).2.1 = 0 then none
          else some (((parseDigits 0 0 (s :: cs1)).1 : Int), (parseDigits 0 0 (s :: cs1)).2.2)
    else some (0, c :: cs)

/-- Reads an unsigned number literal: integer part, optional fraction,
optional exponent. -/
def parseUnsigned (negative : Bool) (cs : List Char) : Option (Json × List Char) :=
  match parseIntPart cs with
  | none => none
  | some (whole, cs1) =>
    match parseFraction whole cs1 with
    | none => none
    | some (digits, places, cs2) =>
      match parseExponent cs2 with
      | none => none
      | some (exponent, cs3) =>
        some (.num (numberOfDecimal negative digits (exponent - (places : Int))), cs3)

/-- Reads a number literal. -/
def parseNumber : List Char → Option (Json × List Char)
  | [] => none
  | c :: cs => if c = '-' then parseUnsigned true cs else parseUnsigned false (c :: cs)

/-- The characters of a string whose elements are all scalar values. -/
def scalarChars : JsString → Option (List Char)
  | [] => some []
  | .scalar c :: rest =>
    match scalarChars rest with
    | some cs => some (c :: cs)
    | none => none
  | .surrogate _ :: _ => none

/-- The array index a property key denotes, if it is one: a canonical decimal
numeral below `2^32 - 1`. -/
def arrayIndex (k : JsString) : Option Nat :=
  match scalarChars k with
  | none => none
  | some [] => none
  | some (c :: cs) =>
    if (c :: cs).all isDigit ∧ (c ≠ '0' ∨ cs = []) then
      let n := (parseDigits 0 0 (c :: cs)).1
      if n < 4294967295 then some n else none
    else none

/-- Overwrites the value of the property `k`, which keeps its place. -/
def replaceProp (k : JsString) (v : Json) : List (JsString × Json) → List (JsString × Json)
  | [] => []
  | (k', w) :: rest => if k' = k then (k, v) :: rest else (k', w) :: replaceProp k v rest

/-- Places a new property with array index `i` among the index properties,
which come first in ascending order. -/
def insertIndexProp (i : Nat) (k : JsString) (v : Json) :
    List (JsString × Json) → List (JsString × Json)
  | [] => [(k, v)]
  | (k', w) :: rest =>
    match arrayIndex k' with
    | some j => if j < i then (k', w) :: insertIndexProp i k v rest else (k, v) :: (k', w) :: rest
    | none => (k, v) :: (k', w) :: rest

/-- The own properties of an object after `CreateDataProperty(k, v)`: an
existing key keeps its place and takes the new value; a new array index is
placed in ascending order before the other keys; any other new key comes
last. -/
def setProp (props : List (JsString × Json)) (k : JsString) (v : Json) :
    List (JsString × Json) :=
  match lookupProp k props with
  | some _ => replaceProp k v props
  | none =>
    match arrayIndex k with
    | some i => insertIndexProp i k v props
    | none => props ++ [(k, v)]

/-- Removes a prefix from the input, if the input starts with it. -/
def stripPrefix : List Char → List Char → Option (List Char)
  | [], cs => some cs
  | _ :: _, [] => none
  | p :: ps, c :: cs => if p = c then stripPrefix ps cs else none

/-- Reads the rest of a literal name and answers with its value. -/
def parseLiteral (name : List Char) (v : Json) (cs : List Char) : Option (Json × List Char) :=
  match stripPrefix name cs with
  | some rest => some (v, rest)
  | none => none

mutual
/-- Reads one JSON value at the head of the input (no leading white space). -/
def parseValue : Nat → List Char → Option (Json × List Char)
  | 0, _ => none
  | _ + 1, [] => none
  | fuel + 1, c :: rest =>
    if c = 'n' then parseLiteral ['u', 'l', 'l'] .null rest
    else if c = 't' then parseLiteral ['r', 'u', 'e'] (.bool true) rest
    else if c = 'f' then parseLiteral ['a', 'l', 's', 'e'] (.bool false) rest
    else if c = '"' then
      match parseChars rest with
      | some (s, rest1) => some (.str s, rest1)
      | none => none
    else if c = '[' then
      match skipWs rest with
      | [] => none
      | d :: rest1 =>
        if d = ']' then some (.arr [], rest1)
        else
          match parseItems fuel (d :: rest1) with
          | some (items, rest2) => some (.arr items, rest2)
          | none => none
    else if c = '{' then
      match skipWs rest with
      | [] => none
      | d :: rest1 =>
        if d = '}' then some (.obj [], rest1)
        else
          match parseProps fuel [] (d :: rest1) with
          | some (props, rest2) => some (.obj props, rest2)
          | none => none
    else parseNumber (c :: rest)
/-- Reads the elements of a non-empty array up to and including `]`. -/
def parseItems : Nat → List Char → Option (List Json × List Char)
  | 0, _ => none
  | fuel + 1, cs =>
    match parseValue fuel cs with
    | none => none
    | some (v, rest) =>
      match skipWs rest with
      | [] => none
      | d :: rest1 =>
        if d = ',' then
          match parseItems fuel (skipWs rest1) with
          | some (items, rest2) => some (v :: items, rest2)
          | none => none
        else if d = ']' then some ([v], rest1)
        else none
/-- Reads the members of a non-empty object up to and including `}`, adding
each to the properties read so far. -/
def parseProps : Nat → List (JsString × Json) → List Char →
    Option (List (JsString × Json) × List Char)
  | 0, _, _ => none
  | _ + 1, _, [] => none
  | fuel + 1, acc, c :: rest =>
    if c = '"' then
      match parseChars rest with
      | none => none
      | some (k, rest1) =>
        match skipWs rest1 with
        | [] => none
        | d :: rest2 =>
          if d = ':' then
            match parseValue fuel (skipWs rest2) with
            | none => none
            | some (v, rest3) =>
              match skipWs rest3 with
              | [] => none
              | e :: rest4 =>
                if e = ',' then parseProps fuel (setProp acc k v) (skipWs rest4)
                else if e = '}' then some (setProp acc k v, rest4)
                else none
          else none
    else none
end

/-- `JSON.parse(text)`: `none` when the call throws a SyntaxError. -/
def parseJson (text : String) : Option Json :=
  match parseValue (2 * text.length + 2) (skipWs text.data) with
  | some (v, rest) => if skipWs rest = [] then some v else none
  | none => none

/-! ## `localStorage` -/

/-- The content of `localStorage`: the string stored under each key, `none`
for a key that is not there (`getItem` answers `null`). -/
abbrev Storage := String → Option String

/-- The storage with no key. -/
def Storage.empty : Storage := fun _ => none

/-- `localStorage.getItem(k)`. -/
def Storage.getItem (ls : Storage) (k : String) : Option String := ls k

/-- `localStorage.setItem(k, v)`. -/
def Storage.setItem (ls : Storage) (k v : String) : Storage :=
  fun k' => if k' = k then some v else ls k'

/-- `localStorage.removeItem(k)`. -/
def Storage.removeItem (ls : Storage) (k : String) : Storage :=
  fun k' => if k' = k then none else ls k'

/-- Truthiness of what `getItem` answers: `null` and the empty string are
falsy, every other string is truthy. -/
def truthy : Option String → Bool
  | none => false
  | some v => v != ""

/-- What the user and the window see of a handler that ran to its end: the
message of an `alert`, the page assigned to `window.location.href`, and
whether `window.location.reload()` was called. -/
structure Effect where
  alert : Option String
  href : Option String
  reload : Bool
  deriving DecidableEq, Repr

/-! ## Search -/

/-- The object literal `{checkin, checkout, guests}` built from the values of
the three form fields. -/
def searchCriteria (checkin checkout guests : String) : Json :=
  .obj [prop "checkin" (.text checkin), prop "checkout" (.text checkout),
    prop "guests" (.text guests)]

/-- What `searchAvailableRooms` shows when a date is missing. -/
def missingDates : Effect := ⟨some "Please select check-in and check-out dates", none, false⟩

/-- What `searchAvailableRooms` does after recording the criteria. -/
def toRoomsPage : Effect := ⟨none, some "pages/rooms.html", false⟩

/-- The method `searchAvailableRooms`, on the values of the fields `checkin`,
`checkout` and `guests`. -/
def searchAvailableRooms (checkin checkout guests : String) (ls : Storage) : Effect × Storage :=
  if checkin = "" ∨ checkout = "" then (missingDates, ls)
  else
    (toRoomsPage,
      ls.setItem "searchCriteria" (stringify (searchCriteria checkin checkout guests)))

/-! ## Seed data -/

/-- The method `getMockRooms`. -/
def getMockRooms : List Json :=
  [ .obj [prop "id" (.num 1), prop "name" (.text "Deluxe Suite"),
      prop "description" (.text "Spacious suite with king bed and city view"),
      prop "price" (.num 299), prop "capacity" (.num 2), prop "size" (.num 450),
      prop "amenities" (.arr [.text "WiFi", .text "TV", .text "Minibar", .text "AC"]),
      prop "image" (.text "room1.jpg")],
    .obj [prop "id" (.num 2), prop "name" (.text "Executive Room"),
      prop "description" (.text "Modern room with workspace and premium amenities"),
      prop "price" (.num 199), prop "capacity" (.num 2), prop "size" (.num 350),
      prop "amenities" (.arr [.text "WiFi", .text "TV", .text "Work Desk", .text "Coffee Maker"]),
      prop "image" (.text "room2.jpg")],
    .obj [prop "id" (.num 3), prop "name" (.text "Family Suite"),
      prop "description" (.text "Perfect for families with separate bedrooms"),
      prop "price" (.num 399), prop "capacity" (.num 4), prop "size" (.num 600),
      prop "amenities" (.arr [.text "WiFi", .text "2 TVs", .text "Kitchenette", .text "Sofa Bed"]),
      prop "image" (.text "room3.jpg")] ]

/-- The array literal of `setupMockData` holding the demo account. -/
def demoUsers : List Json :=
  [ .obj [prop "id" (.num 1), prop "email" (.text "demo@hotel.com"), prop "password" (.text "demo123"),
      prop "name" (.text "Demo User"), prop "role" (.text "user")] ]

/-- One statement `if (!localStorage.getItem(k)) localStorage.setItem(k, v)`. -/
def seedKey (k v : String) (ls : Storage) : Storage :=
  if truthy (ls.getItem k) then ls else ls.setItem k v

/-- The method `setupMockData`. -/
def setupMockData (ls : Storage) : Storage :=
  seedKey "hotelUsers" (stringify (.arr demoUsers))
    (seedKey "hotelBookings" (stringify (.arr []))
      (seedKey "hotelRooms" (stringify (.arr getMockRooms)) ls))

/-! ## Login and logout -/

/-- The arrow function `u => u.email === email && u.password === password`
on a value that is not `null`. -/
def credentialsMatch (email password : String) (u : Json) : Bool :=
  strictEqStr (u.get "email") email && strictEqStr (u.get "password") password

/-- The call `users.find(u => u.email === email && u.password === password)`
on the elements of an array: reading a property of `null` throws. -/
def findUser (email password : String) : List Json → Except JsError (Option Json)
  | [] => .ok none
  | u :: rest =>
    match u with
    | .null => .error .typeError
    | _ => if credentialsMatch email password u then .ok (some u) else findUser email password rest

/-- Keeps the properties of an object literal whose value is not `undefined`,
as `JSON.stringify` does. -/
def definedProps : List (String × Option Json) → List (JsString × Json)
  | [] => []
  | (k, some v) :: rest => (js k, v) :: definedProps rest
  | (_, none) :: rest => definedProps rest

/-- The object literal `{id: user.id, email: user.email, name: user.name,
role: user.role}` as `JSON.stringify` sees it. -/
def sessionOf (user : Json) : Json :=
  .obj (definedProps [("id", user.get "id"), ("email", user.get "email"),
    ("name", user.get "name"), ("role", user.get "role")])

/-- The expression `localStorage.getItem(k) || fallback`. -/
def getItemOr (ls : Storage) (k fallback : String) : String :=
  match ls.getItem k with
  | some v => if v = "" then fallback else v
  | none => fallback

/-- What the login handler shows and does when the credentials are found. -/
def loginSuccessful : Effect := ⟨some "Login successful!", none, true⟩

/-- What the login handler shows when the credentials are not found. -/
def invalidCredentials : Effect := ⟨some "Invalid credentials", none, false⟩

/-- The submit handler of the login form, on the values of its two fields. -/
def loginSubmit (email password : String) (ls : Storage) : Except JsError Effect × Storage :=
  match parseJson (getItemOr ls "hotelUsers" "[]") with
  | none => (.error .syntaxError, ls)
  | some (.arr users) =>
    match findUser email password users with
    | .error e => (.error e, ls)
    | .ok (some user) =>
      (.ok loginSuccessful, ls.setItem "hotelUser" (stringify (sessionOf user)))
    | .ok none => (.ok invalidCredentials, ls)
  | some _ => (.error .typeError, ls)

/-- The claim's words for a record that matches: its `email` and its
`password` are both exactly the strings given. -/
def HasCredentials (email password : String) (u : Json) : Prop :=
  u.get "email" = some (.text email) ∧ u.get "password" = some (.text password)

/-- The seeded users collection with a `null` entry put in front. -/
def nullThenDemo : List Json := .null :: demoUsers

/-- A record with a fractional id and a name that is one unpaired surrogate. -/
def annRecord : Json :=
  .obj [prop "id" (.num (.finite false 3 1)), prop "email" (.text "ann@hotel.com"),
    prop "password" (.text "pw"), (js "name", .str [.surrogate 0xD800])]

/-- The text of a users collection: the record `annRecord`, a second record
with the same email and password, and a `null` entry after them. -/
def annUsersText : String :=
  "[\x7b\"id\":1.5,\"email\":\"ann@hotel.com\",\"password\":\"pw\",\"name\":\"\\ud800\"\x7d," ++
    "\x7b\"id\":2,\"email\":\"ann@hotel.com\",\"password\":\"pw\"\x7d,null]"

/-- The text of a users collection whose one record has a fractional id. -/
def fractionalIdText : String :=
  "[\x7b\"id\":1.5,\"email\":\"ann@hotel.com\",\"password\":\"pw\"\x7d]"

/-- The records the login handler searches: the elements of the array stored
under `hotelUsers`, none when the key is absent or empty or when what is
stored is not the text of an array. -/
def storedUsers (ls : Storage) : List Json :=
  match parseJson (getItemOr ls "hotelUsers" "[]") with
  | some (.arr users) => users
  | _ => []

mutual
/-- Whether converting a value to a string throws: an object with an own
property `toString` has no callable conversion method, and an array joins the
conversions of its elements. -/
def toStringThrows : Json → Bool
  | .obj props => hasToString props
  | .arr items => anyToStringThrows items
  | _ => false
/-- Whether the conversion of some element throws. -/
def anyToStringThrows : List Json → Bool
  | [] => false
  | v :: rest => toStringThrows v || anyToStringThrows rest
/-- Whether some property is named `toString`. -/
def hasToString : List (JsString × Json) → Bool
  | [] => false
  | (k, _) :: rest => k = js "toString" || hasToString rest
end

/-- Whether the interpolation of the property `k` of a value into a template
throws (`undefined` converts to a string like any primitive). -/
def interpolationThrows (v : Json) (k : String) : Bool :=
  match v.get k with
  | some x => toStringThrows x
  | none => false

/-- What `checkAuthStatus` makes of the page: nobody logged in, or the logged-in
view with the logout listener installed. -/
inductive AuthView where
  | anonymous
  | loggedIn (name : Option Json)

/-- The method `checkAuthStatus`. -/
def checkAuthStatus (ls : Storage) : Except JsError AuthView :=
  match ls.getItem "hotelUser" with
  | none => .ok .anonymous
  | some user =>
    if user = "" then .ok .anonymous
    else
      match parseJson user with
      | none => .error .syntaxError
      | some .null => .error .typeError
      | some userData =>
        if interpolationThrows userData "name" then .error .typeError
        else .ok (.loggedIn (userData.get "name"))

/-- The click listener that `checkAuthStatus` installs on the logout button:
the storage it leaves before the page reloads. The listener is added to
`registerBtn` beside the one of `setupEventListeners`, which stays registered
and shows its registration alert first; that alert touches no storage. -/
def logout (ls : Storage) : Storage := ls.removeItem "hotelUser"

/-! ## Featured rooms -/

/-- What `fetch('api/rooms.json')` and, on a response, `response.json()`
come to: the fetch rejects, or it resolves to a response with its `ok` flag
and the outcome of decoding its body (`none` when decoding rejects). -/
inductive Fetched where
  | rejected
  | response (ok : Bool) (body : Option Json)

/-- The value handed to `displayRooms`: the first three elements of an array,
or the first three code units of a string (whose content is not kept). -/
inductive Featured where
  | rooms (items : List Json)
  | text

/-- The call `rooms.slice(0, 3)`: arrays and strings have the method, any
other value of JSON throws. -/
def slice3 : Json → Except JsError Featured
  | .arr items => .ok (.rooms (items.take 3))
  | .str _ => .ok .text
  | _ => .error .typeError

/-- Whether building the card of one room throws: the properties `name`,
`description`, `capacity`, `size`, `price` and `id` are read and interpolated. -/
def cardThrows (room : Json) : Bool :=
  match room with
  | .null => true
  | _ => ["name", "description", "capacity", "size", "price", "id"].any
      (interpolationThrows room)

/-- The method `displayRooms`, on whether the element `featuredRooms` exists:
only whether the call returns is kept, not the markup it writes. -/
def displayRooms (container : Bool) (rooms : Featured) : Except JsError Unit :=
  if !container then .ok ()
  else
    match rooms with
    | .rooms items => if items.any cardThrows then .error .typeError else .ok ()
    | .text => .error .typeError

/-- The `try` block of `loadFeaturedRooms`: the value whose display
returned. -/
def loadFeaturedRoomsTry (container : Bool) (remote : Fetched) : Except JsError Featured :=
  match remote with
  | .rejected => .error .typeError
  | .response true none => .error .syntaxError
  | .response true (some rooms) =>
    match slice3 rooms with
    | .error e => .error e
    | .ok shown =>
      match displayRooms container shown with
      | .error e => .error e
      | .ok _ => .ok shown
  | .response false _ =>
    match displayRooms container (.rooms (getMockRooms.take 3)) with
    | .error e => .error e
    | .ok _ => .ok (.rooms (getMockRooms.take 3))

/-- The method `loadFeaturedRooms`: the value whose display returned, or the
exception with which the returned promise rejects. -/
def loadFeaturedRooms (container : Bool) (remote : Fetched) : Except JsError Featured :=
  match loadFeaturedRoomsTry container remote with
  | .ok shown => .ok shown
  | .error _ =>
    match displayRooms container (.rooms (getMockRooms.take 3)) with
    | .error e => .error e
    | .ok _ => .ok (.rooms (getMockRooms.take 3))

/-- The failures of the remote attempt: the fetch rejects, the response has a
non-success status, decoding its body rejects, or slicing what was decoded
throws. -/
def remoteFails : Fetched → Bool
  | .rejected => true
  | .response false _ => true
  | .response true none => true
  | .response true (some rooms) =>
    match slice3 rooms with
    | .error _ => true
    | .ok _ => false

/-! ## Install state -/

/-- The state reported in the element `pwaStatus`: the texts `PWA: Installable`,
`PWA: Installing...` and `PWA: Installed` that the script writes, and the text
the page starts with. -/
inductive InstallState where
  | notAvailable
  | installable
  | installing
  | installed
  deriving DecidableEq, Repr

/-- The part of a loaded page the install tracker reads and writes.

* `storage`: `localStorage`, holding the flag `pwaPromptDismissed`;
* `pwaStatus`: the state reported in the element `pwaStatus`;
* `installPrompt`: whether the element `installPrompt` is displayed, `none`
  when the page has no such element;
* `deferredPrompt`: whether the variable `deferredPrompt` declared with `let`
  in the body of `setupPWA` holds an event;
* `globalDeferredPrompt`: a global variable named `deferredPrompt`, `none`
  when no such variable is declared, else whether it holds an event. -/
structure Page where
  storage : Storage
  pwaStatus : InstallState
  installPrompt : Option Bool
  deferredPrompt : Bool
  globalDeferredPrompt : Option Bool

/-- Modelled from the spec: the text the element `pwaStatus` starts with is
part of the markup, which is not among the sources; the specification names
the initial state `NotAvailable`. The script declares no global variable
`deferredPrompt`, and the `let` of `setupPWA` starts undefined. -/
def Page.initial (ls : Storage) (installPrompt : Option Bool) : Page :=
  ⟨ls, .notAvailable, installPrompt, false, none⟩

/-- The listener of `beforeinstallprompt` registered by `setupPWA`. -/
def onBeforeInstallPrompt (p : Page) : Page :=
  ⟨p.storage, .installable,
    if truthy (p.storage.getItem "pwaPromptDismissed") then p.installPrompt
    else p.installPrompt.map (fun _ => true),
    true, p.globalDeferredPrompt⟩

/-- The method `setupPWA`, on whether the page runs in standalone display
mode: it registers the listener above and reports an installed app. -/
def setupPWA (standalone : Bool) (p : Page) : Page :=
  if standalone then
    ⟨p.storage, .installed, p.installPrompt, p.deferredPrompt, p.globalDeferredPrompt⟩
  else p

/-- The method `installPWA`, followed by the resolution of `userChoice` with
the outcome `accepted` or not. The identifier `deferredPrompt` it reads is not
the `let` of `setupPWA`, whose scope is the body of that method: it resolves
to a global variable, and reading it throws when none is declared. -/
def installPWA (accepted : Bool) (p : Page) : Except JsError Page :=
  match p.globalDeferredPrompt with
  | none => .error .referenceError
  | some false => .ok p
  | some true =>
    .ok ⟨p.storage, if accepted then .installing else p.pwaStatus, p.installPrompt,
      p.deferredPrompt, some false⟩

/-- The click listener of `dismissBtn`. -/
def dismissInstallPrompt (p : Page) : Except JsError Page :=
  match p.installPrompt with
  | none => .error .typeError
  | some _ =>
    .ok ⟨p.storage.setItem "pwaPromptDismissed" "true", p.pwaStatus, some false,
      p.deferredPrompt, p.globalDeferredPrompt⟩

/-- The events the tracker can meet after start-up: the platform signalling
that the app can be installed, a click on `installBtn` with the choice the user
then makes, a click on `dismissBtn`, and the platform confirming an install
(`appinstalled`). -/
inductive PwaEvent where
  | beforeInstallPrompt
  | installClick (accepted : Bool)
  | dismissClick
  | appInstalled
  deriving DecidableEq, Repr

/-- One step of the tracker. A listener that throws leaves the page as it
was when it threw; the script registers no listener for `appinstalled`. -/
def pwaStep (p : Page) : PwaEvent → Page
  | .beforeInstallPrompt => onBeforeInstallPrompt p
  | .installClick accepted =>
    match installPWA accepted p with
    | .ok q => q
    | .error _ => p
  | .dismissClick =>
    match dismissInstallPrompt p with
    | .ok q => q
    | .error _ => p
  | .appInstalled => p

/-- The page after a sequence of events. -/
def pwaRun (p : Page) (events : List PwaEvent) : Page :=
  events.foldl pwaStep p

/-- Whether the sticky flag `pwaPromptDismissed` is set. -/
def dismissed (p : Page) : Bool := truthy (p.storage.getItem "pwaPromptDismissed")

/-! ## Reading back what `JSON.stringify` wrote -/

theorem hexVal_hexDigit (d : Nat) (h : d < 16) : hexVal (hexDigit d) = some d := by
  interval_cases d <;> rfl

theorem hex4_unicodeEscape (n : Nat) (h : n < 65536) :
    hex4 (hexDigit (n / 4096 % 16)) (hexDigit (n / 256 % 16)) (hexDigit (n / 16 % 16))
      (hexDigit (n % 16)) = some n := by
  have h16 : ∀ m : Nat, m % 16 < 16 := fun m => Nat.mod_lt _ (by norm_num)
  simp only [hex4, hexVal_hexDigit _ (h16 _)]
  congr 1
  omega

theorem parseEscape_unicodeEscape (c : Char) (h : c.toNat < 32) (rest : List Char) :
    parseEscape ('u' :: hexDigit (c.toNat / 4096 % 16) :: hexDigit (c.toNat / 256 % 16) ::
      hexDigit (c.toNat / 16 % 16) :: hexDigit (c.toNat % 16) :: rest)
      = some (.scalar c, rest) := by
  have hn : c.toNat < 65536 := by omega
  have hs : c.toNat < 55296 ∨ 57343 < c.toNat := Or.inl (by omega)
  simp only [parseEscape, if_true, hex4_unicodeEscape _ hn, if_pos hs, Char.ofNat_toNat]

/-- Reading back one quoted character. -/
theorem parseCharsAux_quoteChar (fuel : Nat) (c : Char) (rest : List Char) :
    parseCharsAux (fuel + 1) (quoteChar c ++ rest)
      = consChar (.scalar c) (parseCharsAux fuel rest) := by
  unfold quoteChar
  split_ifs with h1 h2 h3 h4 h5 h6 h7 h8
  · subst h1; rfl
  · subst h2; rfl
  · subst h3; rfl
  · subst h4; rfl
  · subst h5; rfl
  · subst h6; rfl
  · subst h7; rfl
  · simp only [unicodeEscape, List.cons_append, List.nil_append]
    rw [parseCharsAux, if_neg (by decide), if_pos rfl, parseEscape_unicodeEscape c h8]
  · simp only [List.cons_append, List.nil_append]
    rw [parseCharsAux, if_neg h1, if_neg h2, if_neg h8]

theorem parseCharsAux_quoteBody (cs : List Char) :
    ∀ (fuel : Nat) (rest : List Char), cs.length < fuel →
      parseCharsAux fuel (quoteBody (cs.map .scalar) ++ '"' :: rest)
        = some (cs.map .scalar, rest) := by
  induction cs with
  | nil =>
    intro fuel rest h
    obtain ⟨f, rfl⟩ : ∃ f, fuel = f + 1 := ⟨fuel - 1, by simp at h; omega⟩
    simp [quoteBody, parseCharsAux]
  | cons c cs ih =>
    intro fuel rest h
    obtain ⟨f, rfl⟩ : ∃ f, fuel = f + 1 := ⟨fuel - 1, by simp at h; omega⟩
    simp only [List.map_cons, quoteBody, quoteJsChar, List.append_assoc]
    rw [parseCharsAux_quoteChar, ih f rest (by simpa using h)]
    rfl

theorem length_quoteChar (c : Char) : 1 ≤ (quoteChar c).length := by
  unfold quoteChar
  split_ifs <;> simp [unicodeEscape]

theorem length_quoteBody (cs : List Char) :
    cs.length ≤ (quoteBody (cs.map .scalar)).length := by
  induction cs with
  | nil => simp [quoteBody]
  | cons c cs ih =>
    have := length_quoteChar c
    simp only [List.map_cons, quoteBody, quoteJsChar, List.length_append, List.length_cons]
    omega

/-- Reading back a quoted string. -/
theorem parseChars_quoteBody (s : String) (rest : List Char) :
    parseChars (quoteBody (js s) ++ '"' :: rest) = some (js s, rest) := by
  unfold parseChars js
  apply parseCharsAux_quoteBody
  have := length_quoteBody s.data
  simp only [List.length_append, List.length_cons]
  omega

theorem skipWs_cons (c : Char) (cs : List Char) (h : isWs c = false) :
    skipWs (c :: cs) = c :: cs := by
  simp [skipWs, h]

/-- Reading back a string value. -/
theorem parseValue_quoted (fuel : Nat) (s : String) (rest : List Char) :
    parseValue (fuel + 1) ('"' :: (quoteBody (js s) ++ '"' :: rest))
      = some (.text s, rest) := by
  rw [parseValue]
  simp [parseChars_quoteBody, Json.text]

/-- Reading back a member with a string value that is followed by another member. -/
theorem parseProps_quoted_more (fuel : Nat) (acc : List (JsString × Json)) (k s : String)
    (rest : List Char) :
    parseProps (fuel + 2) acc
        ('"' :: (quoteBody (js k) ++ '"' :: ':' :: '"' ::
          (quoteBody (js s) ++ '"' :: ',' :: '"' :: rest))) =
      parseProps (fuel + 1) (setProp acc (js k) (.text s)) ('"' :: rest) := by
  rw [parseProps]
  simp [parseChars_quoteBody, skipWs_cons, isWs, parseValue_quoted]

/-- Reading back the last member of an object, with a string value. -/
theorem parseProps_quoted_last (fuel : Nat) (acc : List (JsString × Json)) (k s : String)
    (rest : List Char) :
    parseProps (fuel + 2) acc
        ('"' :: (quoteBody (js k) ++ '"' :: ':' :: '"' :: (quoteBody (js s) ++ '"' :: '}' :: rest))) =
      some (setProp acc (js k) (.text s), rest) := by
  rw [parseProps]
  simp [parseChars_quoteBody, skipWs_cons, isWs, parseValue_quoted]

theorem render_searchCriteria (a b c : String) :
    render (searchCriteria a b c) =
      '{' :: '"' :: (quoteBody (js "checkin") ++ '"' :: ':' :: '"' :: (quoteBody (js a) ++ '"' :: ',' ::
        '"' :: (quoteBody (js "checkout") ++ '"' :: ':' :: '"' :: (quoteBody (js b) ++ '"' :: ',' ::
        '"' :: (quoteBody (js "guests") ++ '"' :: ':' :: '"' :: (quoteBody (js c) ++ '"' :: '}' :: [])))))) := by
  simp only [searchCriteria, prop, Json.text, render, renderProps, quoteString, List.cons_append,
    List.append_assoc, List.nil_append]

/-- The stored search criteria read back as written. -/
theorem parseJson_stringify_searchCriteria (a b c : String) :
    parseJson (stringify (searchCriteria a b c)) = some (searchCriteria a b c) := by
  unfold parseJson stringify
  obtain ⟨m, hm⟩ : ∃ m, 2 * (String.mk (render (searchCriteria a b c))).length + 2 = m + 5 := by
    refine ⟨2 * (String.mk (render (searchCriteria a b c))).length - 3, ?_⟩
    have : 2 ≤ (String.mk (render (searchCriteria a b c))).length := by
      rw [render_searchCriteria]; simp [String.length]
    omega
  rw [hm]
  show (match parseValue (m + 5) (skipWs (render (searchCriteria a b c))) with
    | some (v, rest) => if skipWs rest = [] then some v else none
    | none => none) = _
  rw [render_searchCriteria, skipWs_cons _ _ (by rfl), parseValue]
  simp only [Char.reduceEq, if_false, if_true]
  rw [skipWs_cons _ _ (by rfl)]
  simp only [Char.reduceEq, if_false]
  rw [parseProps_quoted_more, parseProps_quoted_more, parseProps_quoted_last]
  rfl

/-! ## Number values and surrogates on examples -/

/-- Literals with a fraction or an exponent, or beyond the safe integers, are
read as the nearest double, and `JSON.stringify` writes a double as
`Number::toString` does. -/
theorem parseJson_number_examples :
    parseJson "1.50" = some (.num (.finite false 3 1)) ∧
    stringify (.num (.finite false 3 1)) = "1.5" ∧
    parseJson "1e3" = some (.num 1000) ∧
    stringify (.num 1000) = "1000" ∧
    parseJson "-0.000001" = some (.num (.finite true 4722366482869645 72)) ∧
    stringify (.num (.finite true 4722366482869645 72)) = "-0.000001" ∧
    parseJson "1e21" = some (.num 1000000000000000000000) ∧
    stringify (.num 1000000000000000000000) = "1e+21" ∧
    parseJson "9007199254740993" = some (.num 9007199254740992) ∧
    stringify (.num 9007199254740992) = "9007199254740992" ∧
    parseJson "0.1" = some (.num (.finite false 3602879701896397 55)) ∧
    stringify (.num (.finite false 3602879701896397 55)) = "0.1" ∧
    parseJson "-0" = some (.num (.finite true 0 0)) ∧
    stringify (.num (.finite true 0 0)) = "0" ∧
    stringify (.num (.infinite false)) = "null" ∧
    parseJson "01" = none ∧ parseJson "1." = none ∧ parseJson ".5" = none ∧
    parseJson "1e" = none := by
  refine ⟨by rfl, by decide, by rfl, by decide, by rfl, by decide, by rfl, by decide, by rfl,
    by decide, by rfl, by decide, by rfl, by decide, by decide, by rfl, by rfl, by rfl, by rfl⟩

/-- Escapes of surrogates are read as `JSON.parse` reads them, a pair as its
scalar value and an unpaired one as itself, and an unpaired surrogate is
written back as an escape. -/
theorem parseJson_surrogate_examples :
    parseJson "\"\\ud83d\\ude00\"" = some (.str [.scalar (Char.ofNat 0x1F600)]) ∧
    parseJson "\"\\ud800\"" = some (.str [.surrogate 0xD800]) ∧
    stringify (.str [.surrogate 0xD800]) = "\"\\ud800\"" := by
  refine ⟨by rfl, by rfl, by decide⟩

/-! ## Search -/

/-- C1: for every storage and every search input whose check-in and check-out
are both non-empty, with any guests value, `searchAvailableRooms` navigates to
the rooms page without an alert and leaves under `searchCriteria` a text that
`JSON.parse` reads back as exactly the submitted `checkin`, `checkout` and
`guests`, whatever was stored there before; no other key changes. -/
theorem searchAvailableRooms_records (ls : Storage) (checkin checkout guests : String)
    (hin : checkin ≠ "") (hout : checkout ≠ "") :
    (searchAvailableRooms checkin checkout guests ls).1 = toRoomsPage ∧
    (∃ text, (searchAvailableRooms checkin checkout guests ls).2.getItem "searchCriteria"
        = some text ∧
      parseJson text = some (searchCriteria checkin checkout guests) ∧
      (parseJson text).bind (fun v => v.get "checkin") = some (.text checkin) ∧
      (parseJson text).bind (fun v => v.get "checkout") = some (.text checkout) ∧
      (parseJson text).bind (fun v => v.get "guests") = some (.text guests)) ∧
    (∀ k, k ≠ "searchCriteria" →
      (searchAvailableRooms checkin checkout guests ls).2.getItem k = ls.getItem k) := by
  have hcond : ¬ (checkin = "" ∨ checkout = "") := by
    rintro (h | h)
    · exact hin h
    · exact hout h
  have hrun : searchAvailableRooms checkin checkout guests ls = (toRoomsPage,
      ls.setItem "searchCriteria" (stringify (searchCriteria checkin checkout guests))) := by
    unfold searchAvailableRooms
    rw [if_neg hcond]
  rw [hrun]
  refine ⟨rfl, ⟨_, ?_, parseJson_stringify_searchCriteria _ _ _, ?_, ?_, ?_⟩, ?_⟩
  · simp only [Storage.getItem, Storage.setItem, if_true]
  · rw [parseJson_stringify_searchCriteria]; rfl
  · rw [parseJson_stringify_searchCriteria]; rfl
  · rw [parseJson_stringify_searchCriteria]; rfl
  · intro k hk
    simp only [Storage.getItem, Storage.setItem, if_neg hk]

/-- Witness of C1: a search from 1 to 3 May for two guests, over a storage
that already holds criteria. -/
theorem searchAvailableRooms_records_witness :
    (searchAvailableRooms "2025-05-01" "2025-05-03" "2"
        (Storage.empty.setItem "searchCriteria" "old")).1 = toRoomsPage ∧
    (∃ text, (searchAvailableRooms "2025-05-01" "2025-05-03" "2"
        (Storage.empty.setItem "searchCriteria" "old")).2.getItem "searchCriteria" = some text ∧
      parseJson text = some (searchCriteria "2025-05-01" "2025-05-03" "2") ∧
      (parseJson text).bind (fun v => v.get "checkin") = some (.text "2025-05-01") ∧
      (parseJson text).bind (fun v => v.get "checkout") = some (.text "2025-05-03") ∧
      (parseJson text).bind (fun v => v.get "guests") = some (.text "2")) ∧
    (∀ k, k ≠ "searchCriteria" →
      (searchAvailableRooms "2025-05-01" "2025-05-03" "2"
        (Storage.empty.setItem "searchCriteria" "old")).2.getItem k
        = (Storage.empty.setItem "searchCriteria" "old").getItem k) :=
  searchAvailableRooms_records _ "2025-05-01" "2025-05-03" "2" (by decide) (by decide)

/-- C2: for every storage and every search input whose check-in or check-out
is empty, `searchAvailableRooms` shows the missing-dates alert, assigns no page
to navigate to, and leaves the storage as it was; in particular the text under
`searchCriteria` is the one stored before. -/
theorem searchAvailableRooms_missing_dates (ls : Storage) (checkin checkout guests : String)
    (h : checkin = "" ∨ checkout = "") :
    (searchAvailableRooms checkin checkout guests ls).1 = missingDates ∧
    (searchAvailableRooms checkin checkout guests ls).1.href = none ∧
    (searchAvailableRooms checkin checkout guests ls).2 = ls ∧
    (searchAvailableRooms checkin checkout guests ls).2.getItem "searchCriteria"
      = ls.getItem "searchCriteria" := by
  have hrun : searchAvailableRooms checkin checkout guests ls = (missingDates, ls) := by
    unfold searchAvailableRooms
    rw [if_pos h]
  rw [hrun]
  exact ⟨rfl, rfl, rfl, rfl⟩

/-- Witness of C2: a search without check-out date over a storage holding
earlier criteria. -/
theorem searchAvailableRooms_missing_dates_witness :
    (searchAvailableRooms "2025-05-01" "" "2"
        (Storage.empty.setItem "searchCriteria" "old")).1 = missingDates ∧
    (searchAvailableRooms "2025-05-01" "" "2"
        (Storage.empty.setItem "searchCriteria" "old")).1.href = none ∧
    (searchAvailableRooms "2025-05-01" "" "2"
        (Storage.empty.setItem "searchCriteria" "old")).2
      = Storage.empty.setItem "searchCriteria" "old" ∧
    (searchAvailableRooms "2025-05-01" "" "2"
        (Storage.empty.setItem "searchCriteria" "old")).2.getItem "searchCriteria"
      = (Storage.empty.setItem "searchCriteria" "old").getItem "searchCriteria" :=
  searchAvailableRooms_missing_dates _ "2025-05-01" "" "2" (Or.inr rfl)

/-! ## Seeding -/

theorem truthy_stringify_arr (items : List Json) : truthy (some (stringify (.arr items))) = true := by
  have h : stringify (.arr items) ≠ "" := by
    intro h
    have := congrArg String.data h
    simp [stringify, render] at this
  simp [truthy, h]

theorem seedKey_same (k v : String) (ls : Storage) (hv : truthy (some v) = true) :
    truthy ((seedKey k v ls).getItem k) = true := by
  unfold seedKey
  by_cases h : truthy (ls.getItem k) = true
  · rw [if_pos h]; exact h
  · rw [if_neg h]
    simpa [Storage.getItem, Storage.setItem] using hv

theorem seedKey_other (k v k' : String) (ls : Storage) (h : k' ≠ k) :
    (seedKey k v ls).getItem k' = ls.getItem k' := by
  unfold seedKey
  split_ifs
  · rfl
  · simp [Storage.getItem, Storage.setItem, h]

theorem seedKey_of_truthy (k v : String) (ls : Storage) (h : truthy (ls.getItem k) = true) :
    seedKey k v ls = ls := by
  unfold seedKey
  rw [if_pos h]

theorem seedKey_getItem (k v : String) (ls : Storage) :
    (seedKey k v ls).getItem k = if truthy (ls.getItem k) then ls.getItem k else some v := by
  unfold seedKey
  split_ifs
  · rfl
  · simp [Storage.getItem, Storage.setItem]

set_option maxRecDepth 100000 in
theorem parseJson_stringify_getMockRooms :
    parseJson (stringify (.arr getMockRooms)) = some (.arr getMockRooms) := by
  rfl

set_option maxRecDepth 100000 in
theorem parseJson_stringify_demoUsers :
    parseJson (stringify (.arr demoUsers)) = some (.arr demoUsers) := by
  rfl

/-- C5: `setupMockData` is idempotent: on every storage, also one where only
some of `hotelRooms`, `hotelBookings`, `hotelUsers` exist, running it twice
leaves the storage that running it once leaves. -/
theorem setupMockData_idempotent (ls : Storage) :
    setupMockData (setupMockData ls) = setupMockData ls := by
  have hr : truthy ((setupMockData ls).getItem "hotelRooms") = true := by
    unfold setupMockData
    rw [seedKey_other _ _ _ _ (by decide), seedKey_other _ _ _ _ (by decide)]
    exact seedKey_same _ _ _ (truthy_stringify_arr _)
  have hb : truthy ((setupMockData ls).getItem "hotelBookings") = true := by
    unfold setupMockData
    rw [seedKey_other _ _ _ _ (by decide)]
    exact seedKey_same _ _ _ (truthy_stringify_arr _)
  have hu : truthy ((setupMockData ls).getItem "hotelUsers") = true := by
    unfold setupMockData
    exact seedKey_same _ _ _ (truthy_stringify_arr _)
  have e : ∀ s : Storage, setupMockData s = seedKey "hotelUsers" (stringify (.arr demoUsers))
      (seedKey "hotelBookings" (stringify (.arr []))
        (seedKey "hotelRooms" (stringify (.arr getMockRooms)) s)) := fun _ => rfl
  rw [e (setupMockData ls)]
  rw [seedKey_of_truthy _ _ _ hr, seedKey_of_truthy _ _ _ hb, seedKey_of_truthy _ _ _ hu]

/-- C6, as stated, fails: a storage in which `hotelBookings` is present with
the empty string as value does not keep that value through `setupMockData`,
which writes the default `[]` over it. -/
theorem setupMockData_overwrites_empty_string :
    (Storage.empty.setItem "hotelBookings" "").getItem "hotelBookings" = some "" ∧
    (setupMockData (Storage.empty.setItem "hotelBookings" "")).getItem "hotelBookings"
      = some "[]" ∧
    (setupMockData (Storage.empty.setItem "hotelBookings" "")).getItem "hotelBookings"
      ≠ (Storage.empty.setItem "hotelBookings" "").getItem "hotelBookings" := by
  decide

/-- C6, amended: for every storage, each of the keys `hotelRooms`,
`hotelBookings`, `hotelUsers` that holds a non-empty string before
`setupMockData` holds the same string after it; each that is absent or holds
the empty string is set to the text of its default (the catalog of
`getMockRooms`, the empty array, the array with the one demo account), which
`JSON.parse` reads back as that default; and no other key changes. -/
theorem setupMockData_writes_defaults_only (ls : Storage) :
    (setupMockData ls).getItem "hotelRooms"
      = (if truthy (ls.getItem "hotelRooms") then ls.getItem "hotelRooms"
          else some (stringify (.arr getMockRooms))) ∧
    (setupMockData ls).getItem "hotelBookings"
      = (if truthy (ls.getItem "hotelBookings") then ls.getItem "hotelBookings"
          else some (stringify (.arr []))) ∧
    (setupMockData ls).getItem "hotelUsers"
      = (if truthy (ls.getItem "hotelUsers") then ls.getItem "hotelUsers"
          else some (stringify (.arr demoUsers))) ∧
    parseJson (stringify (.arr getMockRooms)) = some (.arr getMockRooms) ∧
    parseJson (stringify (.arr [])) = some (.arr []) ∧
    parseJson (stringify (.arr demoUsers)) = some (.arr demoUsers) ∧
    (∀ k, k ≠ "hotelRooms" → k ≠ "hotelBookings" → k ≠ "hotelUsers" →
      (setupMockData ls).getItem k = ls.getItem k) := by
  refine ⟨?_, ?_, ?_, parseJson_stringify_getMockRooms, by rfl, parseJson_stringify_demoUsers, ?_⟩
  · unfold setupMockData
    rw [seedKey_other _ _ _ _ (by decide), seedKey_other _ _ _ _ (by decide), seedKey_getItem]
  · unfold setupMockData
    rw [seedKey_other _ _ _ _ (by decide), seedKey_getItem, seedKey_other _ _ _ _ (by decide)]
  · unfold setupMockData
    rw [seedKey_getItem, seedKey_other _ _ _ _ (by decide), seedKey_other _ _ _ _ (by decide)]
  · intro k h1 h2 h3
    unfold setupMockData
    rw [seedKey_other _ _ _ _ h3, seedKey_other _ _ _ _ h2, seedKey_other _ _ _ _ h1]

/-! ## Logout -/

/-- C7: for every storage, with or without a session in it, after the logout
listener has removed `hotelUser` the key is absent, `checkAuthStatus` finds
nobody logged in, and every other key holds what it held before. -/
theorem logout_clears_session (ls : Storage) :
    (logout ls).getItem "hotelUser" = none ∧
    checkAuthStatus (logout ls) = .ok .anonymous ∧
    (∀ k, k ≠ "hotelUser" → (logout ls).getItem k = ls.getItem k) := by
  have h : (logout ls).getItem "hotelUser" = none := by
    simp [logout, Storage.getItem, Storage.removeItem]
  refine ⟨h, ?_, ?_⟩
  · unfold checkAuthStatus
    rw [h]
  · intro k hk
    simp [logout, Storage.getItem, Storage.removeItem, hk]

/-! ## Login -/

theorem strictEqStr_iff (x : Option Json) (s : String) :
    strictEqStr x s = true ↔ x = some (.text s) := by
  unfold strictEqStr Json.text
  cases x with
  | none => simp
  | some v => cases v <;> simp

/-- The arrow function of the handler answers `true` exactly on the records
whose `email` and `password` are both the strings given. -/
theorem credentialsMatch_iff (email password : String) (u : Json) :
    credentialsMatch email password u = true ↔ HasCredentials email password u := by
  unfold credentialsMatch HasCredentials
  rw [Bool.and_eq_true, strictEqStr_iff, strictEqStr_iff]

theorem credentialsMatch_eq_false_iff (email password : String) (u : Json) :
    credentialsMatch email password u = false ↔ ¬ HasCredentials email password u := by
  rw [← credentialsMatch_iff, Bool.not_eq_true]

theorem findUser_cons (email password : String) (u : Json) (rest : List Json) (hu : u ≠ .null) :
    findUser email password (u :: rest) =
      if credentialsMatch email password u then .ok (some u)
      else findUser email password rest := by
  cases u with
  | null => exact absurd rfl hu
  | _ => rfl

/-- The search of the handler answers with a record exactly when that record
matches and stands after entries that are not `null` and do not match. -/
theorem findUser_eq_some_iff (email password : String) (users : List Json) (user : Json) :
    findUser email password users = .ok (some user) ↔
      ∃ pre post, users = pre ++ user :: post ∧
        (∀ u ∈ pre, u ≠ .null ∧ ¬ HasCredentials email password u) ∧
        HasCredentials email password user := by
  induction users with
  | nil =>
    constructor
    · intro h
      simp [findUser] at h
    · rintro ⟨pre, post, h, _⟩
      simp at h
  | cons u rest ih =>
    by_cases hu : u = .null
    · subst hu
      constructor
      · intro h
        simp [findUser] at h
      · rintro ⟨pre, post, h, hpre, hm⟩
        cases pre with
        | nil =>
          simp only [List.nil_append, List.cons.injEq] at h
          rw [← h.1] at hm
          simp [HasCredentials, Json.get] at hm
        | cons p pre =>
          simp only [List.cons_append, List.cons.injEq] at h
          exact absurd h.1.symm (hpre p (List.mem_cons_self _ _)).1
    · rw [findUser_cons _ _ _ _ hu]
      cases hm : credentialsMatch email password u with
      | true =>
        have hc := (credentialsMatch_iff email password u).mp hm
        simp only [if_true]
        constructor
        · intro h
          have hu' : u = user := by simpa using h
          subst hu'
          exact ⟨[], rest, rfl, by simp, hc⟩
        · rintro ⟨pre, post, h, hpre, hm'⟩
          cases pre with
          | nil =>
            simp only [List.nil_append, List.cons.injEq] at h
            rw [h.1]
          | cons p pre =>
            simp only [List.cons_append, List.cons.injEq] at h
            have := (hpre p (List.mem_cons_self _ _)).2
            rw [← h.1] at this
            exact absurd hc this
      | false =>
        have hc := (credentialsMatch_eq_false_iff email password u).mp hm
        simp only [Bool.false_eq_true, if_false]
        rw [ih]
        constructor
        · rintro ⟨pre, post, h, hpre, hm'⟩
          refine ⟨u :: pre, post, by rw [h]; rfl, ?_, hm'⟩
          intro v hv
          rcases List.mem_cons.mp hv with rfl | hv
          · exact ⟨hu, hc⟩
          · exact hpre v hv
        · rintro ⟨pre, post, h, hpre, hm'⟩
          cases pre with
          | nil =>
            simp only [List.nil_append, List.cons.injEq] at h
            rw [← h.1] at hm'
            exact absurd hm' hc
          | cons p pre =>
            simp only [List.cons_append, List.cons.injEq] at h
            exact ⟨pre, post, h.2, fun v hv => hpre v (List.mem_cons_of_mem _ hv), hm'⟩

/-- The search of the handler answers with no record exactly when no entry is
`null` and none matches. -/
theorem findUser_eq_none_iff (email password : String) (users : List Json) :
    findUser email password users = .ok none ↔
      ∀ u ∈ users, u ≠ .null ∧ ¬ HasCredentials email password u := by
  induction users with
  | nil => simp [findUser]
  | cons u rest ih =>
    by_cases hu : u = .null
    · subst hu
      constructor
      · intro h
        simp [findUser] at h
      · intro h
        exact absurd rfl (h .null (List.mem_cons_self _ _)).1
    · rw [findUser_cons _ _ _ _ hu]
      cases hm : credentialsMatch email password u with
      | true =>
        have hc := (credentialsMatch_iff email password u).mp hm
        simp only [if_true]
        constructor
        · intro h
          simp at h
        · intro h
          exact absurd hc (h u (List.mem_cons_self _ _)).2
      | false =>
        have hc := (credentialsMatch_eq_false_iff email password u).mp hm
        simp only [Bool.false_eq_true, if_false]
        rw [ih]
        constructor
        · intro h v hv
          rcases List.mem_cons.mp hv with rfl | hv
          · exact ⟨hu, hc⟩
          · exact h v hv
        · intro h v hv
          exact h v (List.mem_cons_of_mem _ hv)

/-- The handler in terms of what is stored and what its search answers. -/
theorem loginSubmit_of_parse (ls : Storage) (users : List Json) (email password : String)
    (hparse : parseJson (getItemOr ls "hotelUsers" "[]") = some (.arr users)) :
    loginSubmit email password ls =
      match findUser email password users with
      | .error e => (.error e, ls)
      | .ok (some user) =>
        (.ok loginSuccessful, ls.setItem "hotelUser" (stringify (sessionOf user)))
      | .ok none => (.ok invalidCredentials, ls) := by
  unfold loginSubmit
  rw [hparse]

/-- The handler reports success only by writing the session of a record its
search answered with. -/
theorem loginSubmit_eq_success (ls : Storage) (email password : String)
    (h : (loginSubmit email password ls).1 = .ok loginSuccessful) :
    ∃ users user, parseJson (getItemOr ls "hotelUsers" "[]") = some (.arr users) ∧
      findUser email password users = .ok (some user) := by
  unfold loginSubmit at h
  cases hp : parseJson (getItemOr ls "hotelUsers" "[]") with
  | none => rw [hp] at h; simp at h
  | some v =>
    cases v with
    | arr users =>
      rw [hp] at h
      cases hf : findUser email password users with
      | error e => simp [hf] at h
      | ok found =>
        cases found with
        | none => simp [hf, loginSuccessful, invalidCredentials] at h
        | some user => exact ⟨users, user, rfl, hf⟩
    | _ => rw [hp] at h; simp at h

/-- The handler answers `Invalid credentials` only after a search that
answered with no record. -/
theorem loginSubmit_eq_invalid (ls : Storage) (email password : String)
    (h : (loginSubmit email password ls).1 = .ok invalidCredentials) :
    ∃ users, parseJson (getItemOr ls "hotelUsers" "[]") = some (.arr users) ∧
      findUser email password users = .ok none := by
  unfold loginSubmit at h
  cases hp : parseJson (getItemOr ls "hotelUsers" "[]") with
  | none => rw [hp] at h; simp at h
  | some v =>
    cases v with
    | arr users =>
      rw [hp] at h
      cases hf : findUser email password users with
      | error e => simp [hf] at h
      | ok found =>
        cases found with
        | none => exact ⟨users, rfl, hf⟩
        | some user => simp [hf, loginSuccessful, invalidCredentials] at h
    | _ => rw [hp] at h; simp at h

/-- A handler that does not report success leaves the storage as it was. -/
theorem loginSubmit_storage (ls : Storage) (email password : String)
    (h : (loginSubmit email password ls).1 ≠ .ok loginSuccessful) :
    (loginSubmit email password ls).2 = ls := by
  unfold loginSubmit at h ⊢
  cases hp : parseJson (getItemOr ls "hotelUsers" "[]") with
  | none => rfl
  | some v =>
    cases v with
    | arr users =>
      rw [hp] at h
      cases hf : findUser email password users with
      | error e => simp only [hf]
      | ok found =>
        cases found with
        | none => simp only [hf]
        | some user =>
          simp only [hf] at h
          exact absurd rfl h
    | _ => rfl

/-- The session object has the four properties of the record, and no
password. -/
theorem sessionOf_get (user : Json) :
    (sessionOf user).get "id" = user.get "id" ∧
    (sessionOf user).get "email" = user.get "email" ∧
    (sessionOf user).get "name" = user.get "name" ∧
    (sessionOf user).get "role" = user.get "role" ∧
    (sessionOf user).get "password" = none := by
  have d1 : js "id" ≠ js "email" := by decide
  have d2 : js "id" ≠ js "name" := by decide
  have d3 : js "id" ≠ js "role" := by decide
  have d4 : js "email" ≠ js "name" := by decide
  have d5 : js "email" ≠ js "role" := by decide
  have d6 : js "name" ≠ js "role" := by decide
  have d7 : js "id" ≠ js "password" := by decide
  have d8 : js "email" ≠ js "password" := by decide
  have d9 : js "name" ≠ js "password" := by decide
  have d10 : js "role" ≠ js "password" := by decide
  unfold sessionOf
  cases hi : user.get "id" <;> cases he : user.get "email" <;> cases hn : user.get "name" <;>
    cases hr : user.get "role" <;>
    simp [definedProps, Json.get, lookupProp, d1, d2, d3, d4, d5, d6, d7, d8, d9, d10,
      Ne.symm d1, Ne.symm d2, Ne.symm d3, Ne.symm d4, Ne.symm d5, Ne.symm d6]

theorem getItem_setItem_same (ls : Storage) (k v : String) :
    (ls.setItem k v).getItem k = some v := by
  simp only [Storage.getItem, Storage.setItem, if_true]

theorem getItem_setItem_other (ls : Storage) (k v k' : String) (h : k' ≠ k) :
    (ls.setItem k v).getItem k' = ls.getItem k' := by
  simp only [Storage.getItem, Storage.setItem, if_neg h]

set_option maxRecDepth 100000 in
theorem parseJson_seeded_users :
    parseJson (getItemOr (setupMockData Storage.empty) "hotelUsers" "[]")
      = some (.arr demoUsers) := by
  rfl

set_option maxRecDepth 100000 in
theorem parseJson_nullThenDemo :
    parseJson (getItemOr (Storage.empty.setItem "hotelUsers" (stringify (.arr nullThenDemo)))
      "hotelUsers" "[]") = some (.arr nullThenDemo) := by
  rfl

set_option maxRecDepth 100000 in
theorem parseJson_annUsersText :
    parseJson (getItemOr ((Storage.empty.setItem "hotelUser" "old").setItem "hotelUsers"
      annUsersText) "hotelUsers" "[]")
      = some (.arr ([] ++ annRecord ::
          [.obj [prop "id" (.num 2), prop "email" (.text "ann@hotel.com"),
            prop "password" (.text "pw")], .null])) := by
  rfl

set_option maxRecDepth 100000 in
theorem parseJson_fractionalIdText :
    parseJson (getItemOr (Storage.empty.setItem "hotelUsers" fractionalIdText) "hotelUsers" "[]")
      = some (.arr [.obj [prop "id" (.num (.finite false 3 1)),
          prop "email" (.text "ann@hotel.com"), prop "password" (.text "pw")]]) := by
  rfl

/-- C3, as stated, fails: in the seeded users collection with a `null` entry
put in front, the demo record has `email` and `password` exactly equal to the
demo credentials, yet the handler does not succeed: reading `u.email` on the
`null` entry throws a TypeError before the record is reached, and no session
is written. -/
theorem loginSubmit_throws_on_null_before_match :
    stringify (.arr nullThenDemo) =
      "[null,\x7b\"id\":1,\"email\":\"demo@hotel.com\",\"password\":\"demo123\"," ++
        "\"name\":\"Demo User\",\"role\":\"user\"\x7d]" ∧
    parseJson (getItemOr (Storage.empty.setItem "hotelUsers" (stringify (.arr nullThenDemo)))
      "hotelUsers" "[]") = some (.arr nullThenDemo) ∧
    (∃ u ∈ nullThenDemo, HasCredentials "demo@hotel.com" "demo123" u) ∧
    (loginSubmit "demo@hotel.com" "demo123"
      (Storage.empty.setItem "hotelUsers" (stringify (.arr nullThenDemo)))).1
      = .error .typeError ∧
    (loginSubmit "demo@hotel.com" "demo123"
      (Storage.empty.setItem "hotelUsers" (stringify (.arr nullThenDemo)))).2.getItem "hotelUser"
      = none := by
  refine ⟨by decide, parseJson_nullThenDemo, ?_, ?_, ?_⟩
  · refine ⟨_, List.mem_cons_of_mem _ (List.mem_cons_self _ _), ?_⟩
    exact ⟨rfl, rfl⟩
  · rw [loginSubmit_of_parse _ _ _ _ parseJson_nullThenDemo]
    rfl
  · rw [loginSubmit_of_parse _ _ _ _ parseJson_nullThenDemo]
    rfl

/-- C3, amended: for every storage whose `hotelUsers` holds the text of an
array, every email and every password: if a record of the array has `email`
and `password` both exactly equal to the inputs, and no entry before the first
such record is `null`, the login handler reports success and writes under
`hotelUser`, over whatever was there, the text of a session whose `id`,
`email`, `name` and `role` are those of that first record, with no `password`,
and changes no other key; the handler reports success in no other case. With
the demo credentials on a freshly seeded storage the session written reads
back with the role `user`. -/
theorem loginSubmit_success :
    (∀ (ls : Storage) (pre : List Json) (user : Json) (post : List Json)
      (email password : String),
      parseJson (getItemOr ls "hotelUsers" "[]") = some (.arr (pre ++ user :: post)) →
      (∀ u ∈ pre, u ≠ .null ∧ ¬ HasCredentials email password u) →
      HasCredentials email password user →
        (loginSubmit email password ls).1 = .ok loginSuccessful ∧
        (loginSubmit email password ls).2.getItem "hotelUser"
          = some (stringify (sessionOf user)) ∧
        (∀ k, k ≠ "hotelUser" → (loginSubmit email password ls).2.getItem k = ls.getItem k) ∧
        (sessionOf user).get "id" = user.get "id" ∧
        (sessionOf user).get "email" = some (.text email) ∧
        (sessionOf user).get "name" = user.get "name" ∧
        (sessionOf user).get "role" = user.get "role" ∧
        (sessionOf user).get "password" = none) ∧
    (∀ (ls : Storage) (email password : String),
      (loginSubmit email password ls).1 = .ok loginSuccessful →
        ∃ pre user post,
          parseJson (getItemOr ls "hotelUsers" "[]") = some (.arr (pre ++ user :: post)) ∧
          (∀ u ∈ pre, u ≠ .null ∧ ¬ HasCredentials email password u) ∧
          HasCredentials email password user) ∧
    ((loginSubmit "demo@hotel.com" "demo123" (setupMockData Storage.empty)).1
        = .ok loginSuccessful ∧
      (∃ text, (loginSubmit "demo@hotel.com" "demo123" (setupMockData Storage.empty)).2.getItem
          "hotelUser" = some text ∧
        parseJson text = some (.obj [prop "id" (.num 1), prop "email" (.text "demo@hotel.com"),
          prop "name" (.text "Demo User"), prop "role" (.text "user")]) ∧
        (parseJson text).bind (fun v => v.get "role") = some (.text "user"))) := by
  refine ⟨?_, ?_, ?_⟩
  · intro ls pre user post email password hparse hpre hm
    have hfind : findUser email password (pre ++ user :: post) = .ok (some user) :=
      (findUser_eq_some_iff email password _ user).mpr ⟨pre, post, rfl, hpre, hm⟩
    have hrun := loginSubmit_of_parse ls _ email password hparse
    rw [hfind] at hrun
    have hs := sessionOf_get user
    refine ⟨?_, ?_, ?_, hs.1, ?_, hs.2.2.1, hs.2.2.2.1, hs.2.2.2.2⟩
    · rw [hrun]
    · rw [hrun]; exact getItem_setItem_same _ _ _
    · intro k hk
      rw [hrun]; exact getItem_setItem_other _ _ _ _ hk
    · rw [hs.2.1]; exact hm.1
  · intro ls email password h
    obtain ⟨users, user, hparse, hfind⟩ := loginSubmit_eq_success ls email password h
    obtain ⟨pre, post, hu, hpre, hm⟩ := (findUser_eq_some_iff email password users user).mp hfind
    exact ⟨pre, user, post, by rw [hparse, hu], hpre, hm⟩
  · have hrun := loginSubmit_of_parse (setupMockData Storage.empty) demoUsers
      "demo@hotel.com" "demo123" parseJson_seeded_users
    have hfind : findUser "demo@hotel.com" "demo123" demoUsers
        = .ok (some (.obj [prop "id" (.num 1), prop "email" (.text "demo@hotel.com"),
            prop "password" (.text "demo123"), prop "name" (.text "Demo User"),
            prop "role" (.text "user")])) := by
      rfl
    rw [hfind] at hrun
    rw [hrun]
    refine ⟨rfl, _, getItem_setItem_same _ _ _, by rfl, by rfl⟩

/-- Witness of C3 amended: the first of two records with the same credentials
has a fractional id and an unpaired surrogate as name, a `null` entry follows
them, and a session is already stored; the session written is that of the
first record. -/
theorem loginSubmit_success_witness :
    (loginSubmit "ann@hotel.com" "pw" ((Storage.empty.setItem "hotelUser" "old").setItem
      "hotelUsers" annUsersText)).1 = .ok loginSuccessful ∧
    (loginSubmit "ann@hotel.com" "pw" ((Storage.empty.setItem "hotelUser" "old").setItem
      "hotelUsers" annUsersText)).2.getItem "hotelUser" = some (stringify (sessionOf annRecord)) ∧
    stringify (sessionOf annRecord)
      = "\x7b\"id\":1.5,\"email\":\"ann@hotel.com\",\"name\":\"\\ud800\"\x7d" :=
  have h := loginSubmit_success.1 ((Storage.empty.setItem "hotelUser" "old").setItem
    "hotelUsers" annUsersText) [] annRecord _ "ann@hotel.com" "pw" parseJson_annUsersText
    (by simp) ⟨rfl, rfl⟩
  ⟨h.1, h.2.1, by decide⟩

/-- C4, as stated, fails: in the storage whose `hotelUsers` holds the text of
an empty object, and in the one where it holds the text of an array whose only
entry is `null`, no record matches the demo credentials (there is no record at
all), yet the handler does not answer `Invalid credentials`: it throws a
TypeError, on the call `users.find` in the first and on the read `u.email` in
the second. -/
theorem loginSubmit_throws_on_malformed_users :
    parseJson (getItemOr (Storage.empty.setItem "hotelUsers" "\x7b\x7d") "hotelUsers" "[]")
      = some (.obj []) ∧
    (∀ u ∈ storedUsers (Storage.empty.setItem "hotelUsers" "\x7b\x7d"),
      ¬ HasCredentials "demo@hotel.com" "demo123" u) ∧
    (loginSubmit "demo@hotel.com" "demo123" (Storage.empty.setItem "hotelUsers" "\x7b\x7d")).1
      = .error .typeError ∧
    (loginSubmit "demo@hotel.com" "demo123" (Storage.empty.setItem "hotelUsers" "\x7b\x7d")).1
      ≠ .ok invalidCredentials ∧
    storedUsers (Storage.empty.setItem "hotelUsers" "[null]") = [.null] ∧
    (∀ u ∈ storedUsers (Storage.empty.setItem "hotelUsers" "[null]"),
      ¬ HasCredentials "demo@hotel.com" "demo123" u) ∧
    (loginSubmit "demo@hotel.com" "demo123" (Storage.empty.setItem "hotelUsers" "[null]")).1
      = .error .typeError ∧
    (loginSubmit "demo@hotel.com" "demo123" (Storage.empty.setItem "hotelUsers" "[null]")).1
      ≠ .ok invalidCredentials := by
  have hparse : parseJson (getItemOr (Storage.empty.setItem "hotelUsers" "\x7b\x7d")
      "hotelUsers" "[]") = some (.obj []) := by rfl
  have hrun : (loginSubmit "demo@hotel.com" "demo123"
      (Storage.empty.setItem "hotelUsers" "\x7b\x7d")).1 = .error .typeError := by rfl
  have hstored : storedUsers (Storage.empty.setItem "hotelUsers" "[null]") = [.null] := by rfl
  have hrun2 : (loginSubmit "demo@hotel.com" "demo123"
      (Storage.empty.setItem "hotelUsers" "[null]")).1 = .error .typeError := by rfl
  refine ⟨hparse, ?_, hrun, ?_, hstored, ?_, hrun2, ?_⟩
  · intro u hu
    have : storedUsers (Storage.empty.setItem "hotelUsers" "\x7b\x7d") = [] := by rfl
    rw [this] at hu
    simp at hu
  · rw [hrun]
    simp
  · intro u hu
    rw [hstored] at hu
    simp only [List.mem_singleton] at hu
    subst hu
    simp [HasCredentials, Json.get]
  · rw [hrun2]
    simp

/-- C4, amended: for every storage, email and password: the login handler
answers `Invalid credentials` if and only if the value of `hotelUsers`, taken
as `[]` when the key is absent or empty, is the text of an array in which no
entry is `null` and no record has `email` and `password` both exactly equal to
the inputs; and whenever the handler does not report success, because it
answers `Invalid credentials` or because it throws, every key of the storage,
`hotelUser` included, holds what it held before. -/
theorem loginSubmit_failure (ls : Storage) (email password : String) :
    ((loginSubmit email password ls).1 = .ok invalidCredentials ↔
      ∃ users, parseJson (getItemOr ls "hotelUsers" "[]") = some (.arr users) ∧
        ∀ u ∈ users, u ≠ .null ∧ ¬ HasCredentials email password u) ∧
    (truthy (ls.getItem "hotelUsers") = false → getItemOr ls "hotelUsers" "[]" = "[]") ∧
    ((loginSubmit email password ls).1 ≠ .ok loginSuccessful →
      (loginSubmit email password ls).2 = ls ∧
      (loginSubmit email password ls).2.getItem "hotelUser" = ls.getItem "hotelUser") := by
  refine ⟨⟨?_, ?_⟩, ?_, ?_⟩
  · intro h
    obtain ⟨users, hparse, hfind⟩ := loginSubmit_eq_invalid ls email password h
    exact ⟨users, hparse, (findUser_eq_none_iff email password users).mp hfind⟩
  · rintro ⟨users, hparse, hnone⟩
    rw [loginSubmit_of_parse ls users email password hparse,
      (findUser_eq_none_iff email password users).mpr hnone]
  · intro h
    unfold getItemOr
    cases hg : ls.getItem "hotelUsers" with
    | none => rfl
    | some v =>
      rw [hg] at h
      have hv : v = "" := by simpa [truthy] using h
      simp [hv]
  · intro h
    have hs := loginSubmit_storage ls email password h
    exact ⟨hs, by rw [hs]⟩

/-- Witness of C4 amended: a wrong password against a stored record with a
fractional id, over a storage that holds a session. -/
theorem loginSubmit_failure_witness :
    (loginSubmit "ann@hotel.com" "wrong" (Storage.empty.setItem "hotelUsers" fractionalIdText)).1
      = .ok invalidCredentials ∧
    (loginSubmit "ann@hotel.com" "wrong" (Storage.empty.setItem "hotelUsers" fractionalIdText)).2
      = Storage.empty.setItem "hotelUsers" fractionalIdText :=
  have h := loginSubmit_failure (Storage.empty.setItem "hotelUsers" fractionalIdText)
    "ann@hotel.com" "wrong"
  have hbad : (loginSubmit "ann@hotel.com" "wrong"
      (Storage.empty.setItem "hotelUsers" fractionalIdText)).1 = .ok invalidCredentials :=
    h.1.mpr ⟨_, parseJson_fractionalIdText, by
      intro u hu
      simp only [List.mem_singleton] at hu
      subst hu
      exact ⟨by simp, (credentialsMatch_eq_false_iff _ _ _).mp rfl⟩⟩
  ⟨hbad, (h.2.2 (by rw [hbad]; simp [loginSuccessful, invalidCredentials])).1⟩

/-! ## Featured rooms -/

theorem displayRooms_getMockRooms (container : Bool) :
    displayRooms container (.rooms (getMockRooms.take 3)) = .ok () := by
  cases container <;> rfl

/-- When the `try` block throws, the default catalog is displayed. -/
theorem loadFeaturedRooms_of_try_error (container : Bool) (remote : Fetched) (e : JsError)
    (h : loadFeaturedRoomsTry container remote = .error e) :
    loadFeaturedRooms container remote = .ok (.rooms getMockRooms) := by
  unfold loadFeaturedRooms
  rw [h]
  simp only [displayRooms_getMockRooms]
  rfl

/-- The `try` block hands on the default catalog, the slice of what the
remote source sent, or throws. -/
theorem loadFeaturedRoomsTry_cases (container : Bool) (remote : Fetched) :
    loadFeaturedRoomsTry container remote = .ok (.rooms getMockRooms) ∨
    (∃ rooms shown, remote = .response true (some rooms) ∧ slice3 rooms = .ok shown ∧
      loadFeaturedRoomsTry container remote = .ok shown) ∨
    (∃ e, loadFeaturedRoomsTry container remote = .error e) := by
  cases remote with
  | rejected => exact Or.inr (Or.inr ⟨_, rfl⟩)
  | response ok body =>
    cases ok with
    | false =>
      left
      simp only [loadFeaturedRoomsTry, displayRooms_getMockRooms]
      rfl
    | true =>
      cases body with
      | none => exact Or.inr (Or.inr ⟨_, rfl⟩)
      | some rooms =>
        cases hs : slice3 rooms with
        | error e => exact Or.inr (Or.inr ⟨e, by simp only [loadFeaturedRoomsTry, hs]⟩)
        | ok shown =>
          cases hd : displayRooms container shown with
          | error e => exact Or.inr (Or.inr ⟨e, by simp only [loadFeaturedRoomsTry, hs, hd]⟩)
          | ok u =>
            exact Or.inr (Or.inl ⟨rooms, shown, rfl, hs, by
              simp only [loadFeaturedRoomsTry, hs, hd]⟩)

/-- A failed remote attempt ends with the default catalog displayed. -/
theorem loadFeaturedRooms_of_remoteFails (container : Bool) (remote : Fetched)
    (h : remoteFails remote = true) :
    loadFeaturedRooms container remote = .ok (.rooms getMockRooms) := by
  cases remote with
  | rejected => exact loadFeaturedRooms_of_try_error _ _ _ rfl
  | response ok body =>
    cases ok with
    | false =>
      unfold loadFeaturedRooms loadFeaturedRoomsTry
      simp only [displayRooms_getMockRooms]
      rfl
    | true =>
      cases body with
      | none => exact loadFeaturedRooms_of_try_error _ _ _ rfl
      | some rooms =>
        cases hs : slice3 rooms with
        | error e =>
          apply loadFeaturedRooms_of_try_error _ _ e
          simp only [loadFeaturedRoomsTry, hs]
        | ok shown =>
          simp [remoteFails, hs] at h

/-- C8: whenever the remote attempt fails (the fetch rejects, the response
has a non-success status, decoding its body rejects, or slicing what was
decoded throws), `loadFeaturedRooms` settles with the catalog of
`getMockRooms` handed to `displayRooms`; that catalog has three rooms, ids
that differ pairwise, and holds "Deluxe Suite" at 299 for 2 guests,
"Executive Room" at 199 for 2 guests and "Family Suite" at 399 for 4
guests. -/
theorem loadFeaturedRooms_fallback (container : Bool) (remote : Fetched)
    (h : remoteFails remote = true) :
    loadFeaturedRooms container remote = .ok (.rooms getMockRooms) ∧
    1 ≤ getMockRooms.length ∧
    getMockRooms.map (fun room => room.get "id") = [some (.num 1), some (.num 2), some (.num 3)] ∧
    getMockRooms.Pairwise (fun a b => a.get "id" ≠ b.get "id") ∧
    (∃ room ∈ getMockRooms, room.get "name" = some (.text "Deluxe Suite") ∧
      room.get "price" = some (.num 299) ∧ room.get "capacity" = some (.num 2)) ∧
    (∃ room ∈ getMockRooms, room.get "name" = some (.text "Executive Room") ∧
      room.get "price" = some (.num 199) ∧ room.get "capacity" = some (.num 2)) ∧
    (∃ room ∈ getMockRooms, room.get "name" = some (.text "Family Suite") ∧
      room.get "price" = some (.num 399) ∧ room.get "capacity" = some (.num 4)) := by
  refine ⟨loadFeaturedRooms_of_remoteFails container remote h, by decide, by rfl, ?_, ?_, ?_, ?_⟩
  · simp [getMockRooms, Json.get, lookupProp, prop, js]
    decide
  · exact ⟨_, List.mem_cons_self _ _, rfl, rfl, rfl⟩
  · exact ⟨_, List.mem_cons_of_mem _ (List.mem_cons_self _ _), rfl, rfl, rfl⟩
  · exact ⟨_, List.mem_cons_of_mem _ (List.mem_cons_of_mem _ (List.mem_cons_self _ _)),
      rfl, rfl, rfl⟩

/-- Witness of C8: the fetch rejects. -/
theorem loadFeaturedRooms_fallback_witness :
    loadFeaturedRooms true .rejected = .ok (.rooms getMockRooms) ∧
    1 ≤ getMockRooms.length ∧
    getMockRooms.map (fun room => room.get "id") = [some (.num 1), some (.num 2), some (.num 3)] ∧
    getMockRooms.Pairwise (fun a b => a.get "id" ≠ b.get "id") ∧
    (∃ room ∈ getMockRooms, room.get "name" = some (.text "Deluxe Suite") ∧
      room.get "price" = some (.num 299) ∧ room.get "capacity" = some (.num 2)) ∧
    (∃ room ∈ getMockRooms, room.get "name" = some (.text "Executive Room") ∧
      room.get "price" = some (.num 199) ∧ room.get "capacity" = some (.num 2)) ∧
    (∃ room ∈ getMockRooms, room.get "name" = some (.text "Family Suite") ∧
      room.get "price" = some (.num 399) ∧ room.get "capacity" = some (.num 4)) :=
  loadFeaturedRooms_fallback true .rejected (by decide)

/-- C9, as stated, fails: on a success response that carries the empty
array, `loadFeaturedRooms` hands the empty sequence to `displayRooms`, with or
without the element `featuredRooms`. -/
theorem loadFeaturedRooms_empty_response :
    loadFeaturedRooms true (.response true (some (.arr []))) = .ok (.rooms []) ∧
    loadFeaturedRooms false (.response true (some (.arr []))) = .ok (.rooms []) := by
  exact ⟨rfl, rfl⟩

/-- C9, amended: for every outcome of the remote attempt `loadFeaturedRooms`
settles without an exception; whenever the attempt fails, or the response
carries a non-empty array, the sequence handed on for display is non-empty
(the default catalog, or the first three elements of the array), and a
success response that carries the empty array has the empty sequence handed
on. -/
theorem loadFeaturedRooms_total (container : Bool) (remote : Fetched) :
    (∃ shown, loadFeaturedRooms container remote = .ok shown) ∧
    (remoteFails remote = true →
      loadFeaturedRooms container remote = .ok (.rooms getMockRooms) ∧ getMockRooms ≠ []) ∧
    (∀ items, remote = .response true (some (.arr items)) → items ≠ [] →
      ∃ shown, loadFeaturedRooms container remote = .ok (.rooms shown) ∧ shown ≠ [] ∧
        (shown = getMockRooms ∨ shown = items.take 3)) ∧
    (remote = .response true (some (.arr [])) →
      loadFeaturedRooms container remote = .ok (.rooms [])) := by
  have hcases := loadFeaturedRoomsTry_cases container remote
  refine ⟨?_, ?_, ?_, ?_⟩
  · rcases hcases with h | ⟨rooms, shown, _, _, h⟩ | ⟨e, h⟩
    · exact ⟨_, by unfold loadFeaturedRooms; rw [h]⟩
    · exact ⟨_, by unfold loadFeaturedRooms; rw [h]⟩
    · exact ⟨_, loadFeaturedRooms_of_try_error _ _ e h⟩
  · intro h
    exact ⟨loadFeaturedRooms_of_remoteFails container remote h, by simp [getMockRooms]⟩
  · intro items hremote hne
    rcases hcases with h | ⟨rooms, shown, hr, hs, h⟩ | ⟨e, h⟩
    · exact ⟨getMockRooms, by unfold loadFeaturedRooms; rw [h], by simp [getMockRooms], Or.inl rfl⟩
    · rw [hremote] at hr
      injection hr with _ hb
      injection hb with hb
      subst hb
      simp only [slice3] at hs
      injection hs with hs
      subst hs
      refine ⟨items.take 3, by unfold loadFeaturedRooms; rw [h], ?_, Or.inr rfl⟩
      cases items with
      | nil => exact absurd rfl hne
      | cons a rest => simp
    · exact ⟨getMockRooms, loadFeaturedRooms_of_try_error _ _ e h, by simp [getMockRooms],
        Or.inl rfl⟩
  · intro hremote
    subst hremote
    cases container <;> rfl

/-- Witness of C9 amended: a success response with four rooms, the second of
which is `null`, so that the display of the remote rooms throws and the
default catalog is shown. -/
theorem loadFeaturedRooms_total_witness :
    ∃ shown, loadFeaturedRooms true (.response true (some (.arr
        [.obj [prop "id" (.num 9)], .null, .obj [], .obj []]))) = .ok (.rooms shown) ∧ shown ≠ [] ∧
      (shown = getMockRooms ∨ shown = [Json.obj [prop "id" (.num 9)], .null, .obj [], .obj []].take 3) :=
  (loadFeaturedRooms_total true _).2.2.1 _ rfl (by simp)

/-! ## Install state -/

theorem dismissed_pwaStep (p : Page) (e : PwaEvent) (h : dismissed p = true) :
    dismissed (pwaStep p e) = true := by
  cases e with
  | beforeInstallPrompt => exact h
  | installClick accepted =>
    unfold pwaStep installPWA
    cases hg : p.globalDeferredPrompt with
    | none => exact h
    | some b => cases b <;> exact h
  | dismissClick =>
    unfold pwaStep dismissInstallPrompt
    cases hp : p.installPrompt with
    | none => exact h
    | some b => rfl
  | appInstalled => exact h

theorem dismissed_pwaRun (events : List PwaEvent) :
    ∀ p : Page, dismissed p = true → dismissed (pwaRun p events) = true := by
  induction events with
  | nil => intro p h; exact h
  | cons e rest ih =>
    intro p h
    exact ih (pwaStep p e) (dismissed_pwaStep p e h)

theorem pwaStatus_pwaStep (p : Page) (e : PwaEvent) (h : p.pwaStatus ≠ .installed) :
    (pwaStep p e).pwaStatus ≠ .installed := by
  cases e with
  | beforeInstallPrompt => simp [pwaStep, onBeforeInstallPrompt]
  | installClick accepted =>
    unfold pwaStep installPWA
    cases hg : p.globalDeferredPrompt with
    | none => exact h
    | some b =>
      cases b with
      | false => exact h
      | true =>
        cases accepted with
        | false => exact h
        | true => simp
  | dismissClick =>
    unfold pwaStep dismissInstallPrompt
    cases hp : p.installPrompt with
    | none => exact h
    | some b => exact h
  | appInstalled => exact h

theorem pwaStatus_pwaRun (events : List PwaEvent) :
    ∀ p : Page, p.pwaStatus ≠ .installed → (pwaRun p events).pwaStatus ≠ .installed := by
  induction events with
  | nil => intro p h; exact h
  | cons e rest ih =>
    intro p h
    exact ih (pwaStep p e) (pwaStatus_pwaStep p e h)

/-- C10, as stated, fails: from the start state `NotAvailable` the capability
signal leads to `Installable`, but a click on the install button that the user
accepts leaves the state `Installable` (`installPWA` throws a ReferenceError on
reading `deferredPrompt`), the platform's confirmation after it leaves it
`Installable` too, and even a page that reports `Installing` keeps reporting
`Installing` when the platform confirms the install. -/
theorem installPWA_does_not_advance :
    (pwaRun (setupPWA false (Page.initial Storage.empty (some false)))
      [.beforeInstallPrompt]).pwaStatus = .installable ∧
    (pwaRun (setupPWA false (Page.initial Storage.empty (some false)))
      [.beforeInstallPrompt, .installClick true]).pwaStatus = .installable ∧
    (pwaRun (setupPWA false (Page.initial Storage.empty (some false)))
      [.beforeInstallPrompt, .installClick true, .appInstalled]).pwaStatus = .installable ∧
    (pwaStep ⟨Storage.empty, .installing, some false, true, none⟩ .appInstalled).pwaStatus
      = .installing := by
  decide

/-- C10, amended: on every page, the capability signal makes the reported
state `Installable` whether or not the dismissed flag is set, and from the
start state `NotAvailable` in particular; a click on the dismiss button of an
existing prompt sets the dismissed flag and leaves the reported state as it
was; once set, the flag stays set through every later sequence of events,
capability signals included; the platform's confirmation of an install changes
nothing, no sequence of events makes a page report `Installed`, and
`Installed` is what `setupPWA` reports when the page starts in standalone
mode. -/
theorem pwa_tracker (p : Page) :
    (pwaStep p .beforeInstallPrompt).pwaStatus = .installable ∧
    (∀ ls prompt, (pwaStep (setupPWA false (Page.initial ls prompt)) .beforeInstallPrompt).pwaStatus
      = .installable ∧ (setupPWA false (Page.initial ls prompt)).pwaStatus = .notAvailable) ∧
    (p.installPrompt ≠ none →
      dismissed (pwaStep p .dismissClick) = true ∧
      (pwaStep p .dismissClick).pwaStatus = p.pwaStatus) ∧
    (dismissed p = true → ∀ events, dismissed (pwaRun p events) = true) ∧
    pwaStep p .appInstalled = p ∧
    (p.pwaStatus ≠ .installed → ∀ events, (pwaRun p events).pwaStatus ≠ .installed) ∧
    (setupPWA true p).pwaStatus = .installed := by
  refine ⟨rfl, fun _ _ => ⟨rfl, rfl⟩, ?_, fun h events => dismissed_pwaRun events p h, rfl,
    fun h events => pwaStatus_pwaRun events p h, rfl⟩
  intro h
  unfold pwaStep dismissInstallPrompt
  cases hp : p.installPrompt with
  | none => exact absurd hp h
  | some b => exact ⟨rfl, rfl⟩

/-- Witness of C10 amended: a page with a hidden prompt and no flag; the
prompt is dismissed after a first capability signal, and the flag is still set
after a second signal. -/
theorem pwa_tracker_witness :
    dismissed (pwaStep (pwaStep (Page.initial Storage.empty (some false)) .beforeInstallPrompt)
      .dismissClick) = true ∧
    (pwaStep (pwaStep (Page.initial Storage.empty (some false)) .beforeInstallPrompt)
      .dismissClick).pwaStatus
      = (pwaStep (Page.initial Storage.empty (some false)) .beforeInstallPrompt).pwaStatus ∧
    dismissed (pwaRun (pwaStep (pwaStep (Page.initial Storage.empty (some false))
      .beforeInstallPrompt) .dismissClick) [.beforeInstallPrompt, .installClick true]) = true :=
  have h1 := (pwa_tracker (pwaStep (Page.initial Storage.empty (some false))
    .beforeInstallPrompt)).2.2.1 (by decide)
  ⟨h1.1, h1.2, (pwa_tracker (pwaStep (pwaStep (Page.initial Storage.empty (some false))
    .beforeInstallPrompt) .dismissClick)).2.2.2.1 h1.1 _⟩

end HotelBooking
